import Mathlib

/-!
Verification development for the serverfl ticket-shop backend.

This file gives a shallow embedding of the order/payment lifecycle engine:
the B2B discount calculator (`src/services/b2b-discount.ts`), the promo
validator (`src/services/promo.ts`), the retail and B2B order services
(`src/services/order.ts`, `src/services/b2b-order.ts`) and the MAIB webhook
handler (`src/routes/maib.ts`).

Modelling conventions:
* JS numbers are modelled as `ℚ`; `Math.round` is `jsRound` (round half up).
* Database rows are Lean structures, tables are lists, and the Supabase
  client is modelled by pure list operations on a `DB` state.  A global
  `dbError` flag makes every store read/write fail, which models the
  per-call error results the source checks (`{ data, error }`).
* Functions that `throw` are embedded in `Except AppError`; functions that
  only `console.error` and keep going are total.
* Side effects that leave the store (confirmation emails, ticket-artifact
  generation batches) are recorded in event lists inside `DB`.
* Timestamps are integers (milliseconds); `new Date()` becomes an explicit
  `now` argument.  Fresh identifiers (`nanoid`, row ids) are drawn from a
  `nextId` counter.
-/

namespace ServerFL

/-- JavaScript `Math.round`: round half toward positive infinity. -/
def jsRound (q : ℚ) : ℤ := ⌊q + 1/2⌋

/-- ASCII uppercase of one character (`String.prototype.toUpperCase`,
restricted to the ASCII range used by status strings and promo codes). -/
def charUpper (c : Char) : Char :=
  if 'a' ≤ c ∧ c ≤ 'z' then Char.ofNat (c.toNat - 32) else c

/-- ASCII lowercase of one character (`String.prototype.toLowerCase`). -/
def charLower (c : Char) : Char :=
  if 'A' ≤ c ∧ c ≤ 'Z' then Char.ofNat (c.toNat + 32) else c

/-- `s.toUpperCase()` over ASCII data. -/
def toUpperCase (s : String) : String := String.mk (s.data.map charUpper)

/-- `s.toLowerCase()` over ASCII data. -/
def toLowerCase (s : String) : String := String.mk (s.data.map charLower)

/-- JS `a || b` over two optional strings, as used in
`statusCode || status` (the empty string and `undefined` are falsy);
the overall fallback is the empty string. -/
def jsOrS (a b : Option String) : String :=
  match a with
  | some s => if s = "" then b.getD "" else s
  | none => b.getD ""

/-- JS truthiness of a nullable numeric column (`NULL` and `0` are falsy). -/
def truthyQ : Option ℚ → Bool
  | none => false
  | some x => if x = 0 then false else true

/-- JS truthiness of a nullable integer column (`NULL` and `0` are falsy). -/
def truthyN : Option Nat → Bool
  | none => false
  | some n => if n = 0 then false else true

/-! ## B2B discount calculator (`src/services/b2b-discount.ts`) -/

structure B2BDiscountTier where
  minQuantity : Nat
  maxQuantity : Option Nat
  discountPercent : ℚ
  label : String
deriving DecidableEq

/-- The static tier table `DISCOUNT_TIERS`. -/
def DISCOUNT_TIERS : List B2BDiscountTier :=
  [⟨50, some 99, 10, "50-99 билетов"⟩,
   ⟨100, some 149, 12, "100-149 билетов"⟩,
   ⟨150, some 199, 15, "150-199 билетов"⟩,
   ⟨200, none, 20, "200+ билетов"⟩]

/-- `MIN_B2B_QUANTITY`. -/
def MIN_B2B_QUANTITY : Nat := 50

structure B2BDiscountCalculation where
  totalQuantity : Nat
  discountPercent : ℚ
  discountTier : B2BDiscountTier
  totalAmount : ℚ
  discountAmount : ℚ
  finalAmount : ℚ
deriving DecidableEq

namespace b2bDiscountService

def getDiscountTiers : List B2BDiscountTier := DISCOUNT_TIERS

/-- The loop condition of `getDiscountTier`:
`totalQuantity >= tier.minQuantity && (tier.maxQuantity === null || totalQuantity <= tier.maxQuantity)`. -/
def tierMatches (totalQuantity : Nat) (tier : B2BDiscountTier) : Bool :=
  decide (tier.minQuantity ≤ totalQuantity) &&
    match tier.maxQuantity with
    | none => true
    | some mx => decide (totalQuantity ≤ mx)

/-- `b2bDiscountService.getDiscountTier`. -/
def getDiscountTier (totalQuantity : Nat) : Option B2BDiscountTier :=
  if totalQuantity < MIN_B2B_QUANTITY then none
  else DISCOUNT_TIERS.find? (tierMatches totalQuantity)

/-- `b2bDiscountService.calculateDiscountPercent`. -/
def calculateDiscountPercent (totalQuantity : Nat) : ℚ :=
  match getDiscountTier totalQuantity with
  | some tier => tier.discountPercent
  | none => 0

/-- The placeholder tier returned for quantities below the minimum. -/
def fallbackTier : B2BDiscountTier :=
  ⟨0, some (MIN_B2B_QUANTITY - 1), 0, "Минимум 50 билетов"⟩

/-- `b2bDiscountService.calculateDiscount`. -/
def calculateDiscount (totalAmount : ℚ) (totalQuantity : Nat) :
    B2BDiscountCalculation :=
  let tier := getDiscountTier totalQuantity
  let discountPercent : ℚ :=
    match tier with
    | some t => t.discountPercent
    | none => 0
  let discountAmount : ℚ := (jsRound (totalAmount * discountPercent / 100 * 100) : ℚ) / 100
  let finalAmount : ℚ := totalAmount - discountAmount
  ⟨totalQuantity, discountPercent, tier.getD fallbackTier, totalAmount,
    discountAmount, finalAmount⟩

/-- `b2bDiscountService.validateMinimumQuantity`. -/
def validateMinimumQuantity (totalQuantity : Nat) : Bool :=
  decide (MIN_B2B_QUANTITY ≤ totalQuantity)

end b2bDiscountService

/-- Rounding to two decimal places, as the spec phrases
`round(totalAmount * percent / 100, 2 decimals)`. -/
def round2 (x : ℚ) : ℚ := (jsRound (x * 100) : ℚ) / 100

/-! ## Data model (rows of the Supabase tables) -/

/-- A row of `tickets` (only the columns the lifecycle engine reads). -/
structure Ticket where
  id : String
  price : ℚ
deriving DecidableEq

/-- A row of `ticket_options`. -/
structure TicketOption where
  id : String
  price_modifier : ℚ
deriving DecidableEq

/-- A row of `promo_codes`.  Nullable numeric columns are `Option`-typed;
the source tests them with JS truthiness (`0` behaves like `NULL`). -/
structure PromoCode where
  code : String
  is_active : Bool
  valid_from : Option Int
  valid_until : Option Int
  usage_limit : Option Nat
  used_count : Nat
  min_order_amount : Option ℚ
  discount_percent : Option ℚ
  discount_amount : Option ℚ
  allowed_ticket_ids : Option (List String)
  one_per_email : Bool
deriving DecidableEq

/-- A row of `orders`. -/
structure Order where
  id : Nat
  order_number : String
  status : String
  customer_email : String
  customer_name : String
  customer_phone : String
  total_amount : ℚ
  discount_amount : ℚ
  promo_code : Option String
  payment_status : String
  language : String
  client_ip : String
  maib_transaction_id : Option String
  failure_reason : Option String
  paid_at : Option Int
  created_at : Int
  reminder_count : Nat
  is_invitation : Bool
deriving DecidableEq

/-- A row of `order_items`. -/
structure OrderItem where
  id : Nat
  order_id : Nat
  ticket_id : String
  ticket_option_id : Option String
  quantity : Nat
  unit_price : ℚ
  ticket_code : String
  qr_data : String
  pdf_url : Option String
  is_invitation : Bool
deriving DecidableEq

/-- A row of `b2b_orders`. -/
structure B2BOrder where
  id : Nat
  order_number : String
  company_name : String
  company_tax_id : Option String
  company_address : Option String
  contact_name : String
  contact_email : String
  contact_phone : String
  payment_method : String
  status : String
  payment_status : String
  total_amount : ℚ
  discount_percent : ℚ
  discount_amount : ℚ
  final_amount : ℚ
  invoice_number : Option String
  invoice_url : Option String
  notes : Option String
  language : String
  client_ip : Option String
  maib_transaction_id : Option String
  paid_at : Option Int
  tickets_generated_at : Option Int
  tickets_sent_at : Option Int
  created_at : Int
deriving DecidableEq

/-- A row of `b2b_order_items` (aggregated at creation, one-per-ticket
after `generateTickets` explodes the order). -/
structure B2BOrderItem where
  id : Nat
  b2b_order_id : Nat
  ticket_id : String
  ticket_option_id : Option String
  quantity : Nat
  unit_price : ℚ
  discount_percent : ℚ
  total_price : ℚ
  ticket_code : Option String
  qr_data : Option String
  status : Option String
  ticket_url : Option String
deriving DecidableEq

/-- A row of `b2b_order_history`. -/
structure HistoryEntry where
  b2b_order_id : Nat
  status : String
  changed_by : Option String
  note : Option String
deriving DecidableEq

/-- The backing store plus the outward side-effect logs.

`confirmationEmails` records each `emailService.sendOrderConfirmation`
call (by order id); `artifactBatches` records each batch of ticket-artifact
generation (one entry per `ticketService.generateTickets` /
B2B PDF-generation run, by order id).  `nextId` feeds every fresh
identifier (row ids, `nanoid` codes).  `dbError` makes every Supabase
call return an `error` result, modelling store failure. -/
structure DB where
  tickets : List Ticket
  ticketOptions : List TicketOption
  promo_codes : List PromoCode
  orders : List Order
  order_items : List OrderItem
  b2b_orders : List B2BOrder
  b2b_order_items : List B2BOrderItem
  b2b_order_history : List HistoryEntry
  confirmationEmails : List Nat
  artifactBatches : List Nat
  nextId : Nat
  dbError : Bool
deriving DecidableEq

/-- `AppError` from `src/middleware/errorHandler.ts`. -/
structure AppError where
  message : String
  statusCode : Nat
deriving DecidableEq

/-! ## Promo validator (`src/services/promo.ts`) -/

structure PromoValidationResult where
  valid : Bool
  errorCode : Option String
  code : Option String
  discountPercent : Option ℚ
  discountAmount : ℚ
  allowedTicketIds : Option (List String)
deriving DecidableEq

structure ValidatePromoOptions where
  code : String
  totalAmount : ℚ
  email : Option String
  ticketIds : Option (List String)
deriving DecidableEq

namespace promoService

/-- The `promo_codes` lookup of `validatePromoCode`:
`.eq('code', code.toUpperCase()).eq('is_active', true).single()`
(`single()` errors when the store fails or no row matches). -/
def promoLookup (promos : List PromoCode) (dbError : Bool) (code : String) :
    Option PromoCode :=
  if dbError then none
  else promos.find? (fun p => p.code == toUpperCase code && p.is_active)

/-- An invalid result with the given machine-readable code (the Russian
user-facing message strings are not modelled). -/
def invalidResult (errorCode : String) : PromoValidationResult :=
  ⟨false, some errorCode, none, none, 0, none⟩

/-- `promoService.validatePromoCode`. -/
def validatePromoCode (db : DB) (now : Int) (options : ValidatePromoOptions) :
    PromoValidationResult :=
  match promoLookup db.promo_codes db.dbError options.code with
  | none => invalidResult "INVALID_CODE"
  | some promo =>
    -- Check validity dates
    if promo.valid_from.elim false (fun vf => decide (now < vf)) then
      invalidResult "NOT_YET_ACTIVE"
    else if promo.valid_until.elim false (fun vu => decide (vu < now)) then
      invalidResult "EXPIRED"
    -- Check usage limit (JS truthiness: a 0 limit is skipped)
    else if truthyN promo.usage_limit &&
        decide (promo.usage_limit.getD 0 ≤ promo.used_count) then
      invalidResult "USAGE_LIMIT"
    -- Check minimum order amount (JS truthiness: a 0 minimum is skipped)
    else if truthyQ promo.min_order_amount &&
        decide (options.totalAmount < promo.min_order_amount.getD 0) then
      invalidResult "MIN_ORDER_AMOUNT"
    -- Check ticket restrictions (skipped when `ticketIds` is not supplied)
    else if (match promo.allowed_ticket_ids, options.ticketIds with
             | some allowed, some tids =>
               !allowed.isEmpty && !tids.any (fun i => allowed.contains i)
             | _, _ => false) then
      invalidResult "TICKET_RESTRICTION"
    -- Check one per email restriction (skipped when `email` is not supplied;
    -- also silently skipped when the orders query errors)
    else if (match options.email with
             | some email =>
               promo.one_per_email && !(email == "") && !db.dbError &&
                 db.orders.any (fun o =>
                   o.promo_code == some promo.code &&
                   o.customer_email == toLowerCase email &&
                   (o.status == "paid" || o.status == "pending"))
             | none => false) then
      invalidResult "ALREADY_USED_BY_EMAIL"
    else
      -- Calculate discount
      let discountAmount : ℚ :=
        if truthyQ promo.discount_percent then
          (jsRound (options.totalAmount * promo.discount_percent.getD 0 / 100) : ℚ)
        else if truthyQ promo.discount_amount then
          min (promo.discount_amount.getD 0) options.totalAmount
        else 0
      ⟨true, none, some promo.code, promo.discount_percent, discountAmount,
        promo.allowed_ticket_ids⟩

/-- `promoService.incrementUsage`: read the current `used_count`, then
write `used_count + 1`; neither call's error is surfaced. -/
def incrementUsage (code : String) (db : DB) : DB :=
  match (if db.dbError then none
         else db.promo_codes.find? (fun p => p.code == toUpperCase code)) with
  | none => db
  | some promo =>
    if db.dbError then db
    else
      { db with promo_codes := db.promo_codes.map (fun p =>
          if p.code == toUpperCase code then
            { p with used_count := promo.used_count + 1 }
          else p) }

end promoService

/-! ## Retail order service (`src/services/order.ts`) -/

structure Customer where
  email : String
  firstName : String
  lastName : String
  phone : String
deriving DecidableEq

structure CartItem where
  ticketId : String
  optionId : Option String
  quantity : Nat
deriving DecidableEq

structure CreateOrderRequest where
  customer : Customer
  items : List CartItem
  promoCode : Option String
  language : String
  clientIp : String
deriving DecidableEq

/-- An order item assembled in memory before insertion (no row id yet). -/
structure PendingOrderItem where
  ticket_id : String
  ticket_option_id : Option String
  quantity : Nat
  unit_price : ℚ
  ticket_code : String
  qr_data : String
deriving DecidableEq

/-- `generateTicketCode()` (`nanoid(12)`), determinised by a counter. -/
def generateTicketCode (n : Nat) : String := "TC" ++ toString n

/-- `JSON.stringify({ code, ts })`, abstracted to an injective encoding. -/
def qrPayload (code : String) (ts : Int) : String :=
  "code=" ++ code ++ ";ts=" ++ toString ts

namespace orderService

/-- One iteration of the `createOrder` cart loop: resolve the current
ticket price plus option modifier (a missing option silently adds
nothing; a missing ticket throws 400). -/
def resolveUnitPrice (db : DB) (item : CartItem) : Except AppError ℚ :=
  match (if db.dbError then none
         else db.tickets.find? (fun t => t.id == item.ticketId)) with
  | none => .error ⟨"Ticket not found: " ++ item.ticketId, 400⟩
  | some ticket =>
    match item.optionId with
    | none => .ok ticket.price
    | some oid =>
      match (if db.dbError then none
             else db.ticketOptions.find? (fun o => o.id == oid)) with
      | none => .ok ticket.price
      | some opt => .ok (ticket.price + opt.price_modifier)

/-- Explode one cart line into `quantity` pending items, threading the
fresh-code counter. -/
def explodeCartLine (item : CartItem) (unitPrice : ℚ) (now : Int) :
    Nat → Nat → List PendingOrderItem
  | 0, _ => []
  | Nat.succ k, ctr =>
    let code := generateTicketCode ctr
    ⟨item.ticketId, item.optionId, 1, unitPrice, code, qrPayload code now⟩ ::
      explodeCartLine item unitPrice now k (ctr + 1)

/-- The `for (const item of items)` loop of `createOrder`: accumulates the
total amount and the exploded pending items. -/
def buildOrderItems (db : DB) (now : Int) :
    List CartItem → Nat → Except AppError (ℚ × List PendingOrderItem × Nat)
  | [], ctr => .ok (0, [], ctr)
  | item :: rest, ctr =>
    match resolveUnitPrice db item with
    | .error e => .error e
    | .ok unitPrice =>
      let pending := explodeCartLine item unitPrice now item.quantity ctr
      match buildOrderItems db now rest (ctr + item.quantity) with
      | .error e => .error e
      | .ok (restTotal, restItems, ctr') =>
        .ok (unitPrice * item.quantity + restTotal, pending ++ restItems, ctr')

/-- `orderService.cancelPendingOrdersByEmail`: bulk-update every pending
order of the email to `cancelled`; an error is only logged (returns 0). -/
def cancelPendingOrdersByEmail (email : String) (db : DB) : DB × Nat :=
  if db.dbError then (db, 0)
  else
    let hit : Order → Bool := fun o =>
      o.customer_email == email && o.status == "pending"
    ({ db with orders := db.orders.map (fun o =>
        if hit o then { o with status := "cancelled" } else o) },
      (db.orders.filter hit).length)

/-- `orderService.expireOldPendingOrders`: bulk-update pending orders older
than the cutoff to `expired`; an error is only logged (returns 0). -/
def expireOldPendingOrders (now : Int) (hoursOld : Int) (db : DB) : DB × Nat :=
  let cutoffTime : Int := now - hoursOld * 3600000
  if db.dbError then (db, 0)
  else
    let hit : Order → Bool := fun o =>
      o.status == "pending" && decide (o.created_at < cutoffTime)
    ({ db with orders := db.orders.map (fun o =>
        if hit o then { o with status := "expired" } else o) },
      (db.orders.filter hit).length)

/-- `orderService.markAsPaid`: update to `paid`/`ok` stamping `paid_at`;
an update error is only logged, never thrown. -/
def markAsPaid (orderId : Nat) (now : Int) (db : DB) : Except AppError DB :=
  if db.dbError then .ok db
  else
    .ok { db with orders := db.orders.map (fun o =>
      if o.id == orderId then
        { o with status := "paid", payment_status := "ok", paid_at := some now }
      else o) }

/-- `orderService.markAsFailed`: update to `failed`/`failed` recording the
reason; an update error is only logged, never thrown. -/
def markAsFailed (orderId : Nat) (reason : String) (db : DB) : Except AppError DB :=
  if db.dbError then .ok db
  else
    .ok { db with orders := db.orders.map (fun o =>
      if o.id == orderId then
        { o with status := "failed", payment_status := "failed",
                 failure_reason := some reason }
      else o) }

/-- `orderService.updateTransactionId`; an update error is only logged. -/
def updateTransactionId (orderId : Nat) (transactionId : String) (db : DB) :
    Except AppError DB :=
  if db.dbError then .ok db
  else
    .ok { db with orders := db.orders.map (fun o =>
      if o.id == orderId then
        { o with maib_transaction_id := some transactionId }
      else o) }

/-- `orderService.getOrderByTransactionId` (an error is logged, null returned). -/
def getOrderByTransactionId (db : DB) (transactionId : String) : Option Order :=
  if db.dbError then none
  else db.orders.find? (fun o => o.maib_transaction_id == some transactionId)

/-- The PDF url the ticket collaborator stores for an item. -/
def pdfUrlFor (orderNumber ticketCode : String) : String :=
  "tickets/" ++ orderNumber ++ "/" ++ ticketCode ++ ".pdf"

/-- `orderService.processSuccessfulOrder`: fetch order and items, generate
the PDF artifacts (one batch, recorded in `artifactBatches`), write the
urls back, send the confirmation email.  Errors are rethrown. -/
def processSuccessfulOrder (orderId : Nat) (db : DB) : Except String DB :=
  match (if db.dbError then none
         else db.orders.find? (fun o => o.id == orderId)) with
  | none => .error "Order not found"
  | some order =>
    let items := if db.dbError then []
                 else db.order_items.filter (fun it => it.order_id == orderId)
    if items.isEmpty then .error "Order items not found"
    else
      let db := { db with artifactBatches := db.artifactBatches ++ [orderId] }
      let db := { db with order_items := db.order_items.map (fun it : OrderItem =>
        if it.order_id == orderId then
          { it with pdf_url := some (pdfUrlFor order.order_number it.ticket_code) }
        else it) }
      .ok { db with confirmationEmails := db.confirmationEmails ++ [orderId] }

/-- `orderService.createOrder`. -/
def createOrder (params : CreateOrderRequest) (now : Int) (db0 : DB) :
    Except AppError (DB × Order) :=
  -- Cancel any existing pending orders for this email
  let db := (cancelPendingOrdersByEmail params.customer.email db0).1
  -- Calculate total amount, explode cart lines into per-ticket items
  match buildOrderItems db now params.items db.nextId with
  | .error e => .error e
  | .ok (totalAmount, pendingItems, ctr) =>
  let db := { db with nextId := ctr }
  -- Calculate discount
  let discountAmount : ℚ :=
    match params.promoCode with
    | some promoCode =>
      if promoCode = "" then 0
      else
        let ticketIds := (params.items.map (fun i => i.ticketId)).dedup
        let promoResult := promoService.validatePromoCode db now
          ⟨promoCode, totalAmount, some params.customer.email, some ticketIds⟩
        if promoResult.valid && !(promoResult.discountAmount == 0) then
          promoResult.discountAmount
        else 0
    | none => 0
  -- Create order
  if db.dbError then
    .error ⟨"Failed to create order", 500⟩
  else
    let oid := db.nextId
    let order : Order :=
      { id := oid
        order_number := "FL-" ++ toString oid
        status := "pending"
        customer_email := params.customer.email
        customer_name := params.customer.firstName ++ " " ++ params.customer.lastName
        customer_phone := params.customer.phone
        total_amount := totalAmount
        discount_amount := discountAmount
        promo_code := (match params.promoCode with
                       | some pc => if pc = "" then none else some pc
                       | none => none)
        payment_status := "pending"
        language := params.language
        client_ip := params.clientIp
        maib_transaction_id := none
        failure_reason := none
        paid_at := none
        created_at := now
        reminder_count := 0
        is_invitation := false }
    let db := { db with orders := db.orders ++ [order], nextId := oid + 1 }
    -- Create order items (an insert failure would roll the order back;
    -- under the global store-failure flag creation has already aborted)
    if db.dbError then
      let db := { db with orders := db.orders.filter (fun o => !(o.id == oid)) }
      let _ := db
      .error ⟨"Failed to create order items", 500⟩
    else
      let numbered := pendingItems.enum.map (fun p =>
        ({ id := db.nextId + p.1, order_id := oid,
           ticket_id := p.2.ticket_id, ticket_option_id := p.2.ticket_option_id,
           quantity := p.2.quantity, unit_price := p.2.unit_price,
           ticket_code := p.2.ticket_code, qr_data := p.2.qr_data,
           pdf_url := none, is_invitation := false } : OrderItem))
      let db := { db with order_items := db.order_items ++ numbered,
                          nextId := db.nextId + pendingItems.length }
      -- Increment promo code usage
      let db :=
        match params.promoCode with
        | some pc => if pc = "" then db else promoService.incrementUsage pc db
        | none => db
      .ok (db, order)

end orderService

/-! ## B2B order service (`src/services/b2b-order.ts`) -/

namespace b2bOrderService

/-- `b2bOrderService.addHistoryEntry`: best-effort insert, an error is
only logged. -/
def addHistoryEntry (orderId : Nat) (status : String)
    (changedBy note : Option String) (db : DB) : DB :=
  if db.dbError then db
  else
    { db with b2b_order_history :=
        db.b2b_order_history ++ [⟨orderId, status, changedBy, note⟩] }

/-- `b2bOrderService.getOrderById`: `.single()`, and any error (including
"no rows") is rethrown as a 500 `AppError`. -/
def getOrderById (orderId : Nat) (db : DB) : Except AppError B2BOrder :=
  if db.dbError then .error ⟨"Failed to get order", 500⟩
  else
    match db.b2b_orders.find? (fun o => o.id == orderId) with
    | none => .error ⟨"Failed to get order", 500⟩
    | some o => .ok o

/-- `b2bOrderService.getOrderItems`: errors are rethrown. -/
def getOrderItems (orderId : Nat) (db : DB) : Except AppError (List B2BOrderItem) :=
  if db.dbError then .error ⟨"Failed to get order items", 500⟩
  else .ok (db.b2b_order_items.filter (fun it => it.b2b_order_id == orderId))

/-- `b2bOrderService.updateStatus`: set the status (throwing on a store
error), then add a history entry. -/
def updateStatus (orderId : Nat) (newStatus : String)
    (changedBy note : Option String) (db : DB) : Except AppError DB :=
  if db.dbError then .error ⟨"Failed to update order status", 500⟩
  else
    .ok (addHistoryEntry orderId newStatus changedBy note
      { db with b2b_orders := db.b2b_orders.map (fun o =>
          if o.id == orderId then { o with status := newStatus } else o) })

/-- `b2bOrderService.markAsPaid`: set `paid`/`ok` stamping `paid_at`
(throwing on a store error), then add a history entry. -/
def markAsPaid (orderId : Nat) (changedBy : Option String) (now : Int)
    (db : DB) : Except AppError DB :=
  if db.dbError then .error ⟨"Failed to mark order as paid", 500⟩
  else
    .ok (addHistoryEntry orderId "paid" changedBy (some "Payment confirmed")
      { db with b2b_orders := db.b2b_orders.map (fun o =>
          if o.id == orderId then
            { o with status := "paid", paid_at := some now,
                     payment_status := "ok" }
          else o) })

/-- `b2bOrderService.updateTransactionId`. -/
def updateTransactionId (orderId : Nat) (transactionId : String) (db : DB) :
    Except AppError DB :=
  if db.dbError then .error ⟨"Failed to update transaction ID", 500⟩
  else
    .ok { db with b2b_orders := db.b2b_orders.map (fun o =>
      if o.id == orderId then
        { o with maib_transaction_id := some transactionId }
      else o) }

/-- `b2bOrderService.cancelOrder`: set `cancelled` overwriting `notes`
with the reason (throwing on a store error), then add a history entry. -/
def cancelOrder (orderId : Nat) (reason : String) (changedBy : Option String)
    (db : DB) : Except AppError DB :=
  if db.dbError then .error ⟨"Failed to cancel order", 500⟩
  else
    .ok (addHistoryEntry orderId "cancelled" changedBy
      (some ("Order cancelled: " ++ reason))
      { db with b2b_orders := db.b2b_orders.map (fun o =>
          if o.id == orderId then
            { o with status := "cancelled", notes := some reason }
          else o) })

/-- `b2bOrderService.completeOrder`. -/
def completeOrder (orderId : Nat) (changedBy : Option String) (db : DB) :
    Except AppError DB :=
  updateStatus orderId "completed" changedBy (some "Order completed") db

/-- Explode one aggregated item into `quantity` individual ticket rows
(ticket codes `B2B-<orderNumber>-<nanoid>` determinised by a counter). -/
def explodeB2BItem (order : B2BOrder) (item : B2BOrderItem) :
    Nat → Nat → List B2BOrderItem
  | 0, _ => []
  | Nat.succ k, ctr =>
    let code := "B2B-" ++ order.order_number ++ "-" ++ toString ctr
    { id := ctr, b2b_order_id := order.id,
      ticket_id := item.ticket_id, ticket_option_id := item.ticket_option_id,
      quantity := 1, unit_price := item.unit_price,
      discount_percent := item.discount_percent,
      total_price := item.unit_price * (1 - item.discount_percent / 100),
      ticket_code := some code,
      qr_data := some ("code=" ++ code ++ ";order=" ++ toString order.id),
      status := some "confirmed", ticket_url := none } ::
      explodeB2BItem order item k (ctr + 1)

/-- Explode every aggregated item of the order, threading the counter. -/
def explodeB2BItems (order : B2BOrder) :
    List B2BOrderItem → Nat → List B2BOrderItem × Nat
  | [], ctr => ([], ctr)
  | item :: rest, ctr =>
    let exploded := explodeB2BItem order item item.quantity ctr
    let (restExploded, ctr') := explodeB2BItems order rest (ctr + item.quantity)
    (exploded ++ restExploded, ctr')

/-- The public storage url of a generated B2B ticket PDF. -/
def b2bTicketUrl (orderNumber ticketCode : String) : String :=
  "tickets/" ++ orderNumber ++ "/" ++ ticketCode ++ ".pdf"

/-- `b2bOrderService.generateTickets`: requires the order to be `paid`;
replaces the aggregated items with one row per physical ticket, generates
the PDFs (recorded as one artifact batch), stores their urls and moves the
order to `tickets_generated`. -/
def generateTickets (orderId : Nat) (now : Int) (db : DB) :
    Except AppError DB :=
  match getOrderById orderId db with
  | .error e => .error e
  | .ok order =>
  if order.status ≠ "paid" then
    .error ⟨"Order must be paid before generating tickets", 400⟩
  else
    match getOrderItems orderId db with
    | .error e => .error e
    | .ok aggregatedItems =>
    let aggregatedItemIds := aggregatedItems.map (fun it => it.id)
    let (individualTickets, ctr) := explodeB2BItems order aggregatedItems db.nextId
    -- Delete aggregated items (the result of this call is not checked)
    let db :=
      if db.dbError then db
      else { db with b2b_order_items := db.b2b_order_items.filter (fun it =>
               !aggregatedItemIds.contains it.id), nextId := ctr }
    -- Insert individual ticket records
    if db.dbError then
      .error ⟨"Failed to create individual tickets", 500⟩
    else
      let db := { db with b2b_order_items := db.b2b_order_items ++ individualTickets }
      -- Generate PDFs for all tickets (one artifact batch) and store urls
      let db := { db with artifactBatches := db.artifactBatches ++ [orderId] }
      let db := { db with b2b_order_items := db.b2b_order_items.map (fun it : B2BOrderItem =>
        if it.b2b_order_id == orderId && it.status == some "confirmed" then
          { it with
              ticket_url := some (b2bTicketUrl order.order_number (it.ticket_code.getD "")) }
        else it) }
      -- Update order status and timestamp
      if db.dbError then
        .error ⟨"Failed to update order status", 500⟩
      else
        let db := { db with b2b_orders := db.b2b_orders.map (fun o : B2BOrder =>
          if o.id == orderId then
            { o with status := "tickets_generated",
                     tickets_generated_at := some now }
          else o) }
        .ok (addHistoryEntry orderId "tickets_generated" none
          (some "Tickets generated") db)

end b2bOrderService

/-! ## MAIB webhook handler (`src/routes/maib.ts`, `POST /callback`) -/

/-- The data the callback route extracts from the request: the signature
string (`body.signature || header || ''`), the abstracted outcome of
`paymentService.verifyCallback` (a SHA-256 check over the payload), and
the fields of `body.result || body`. -/
structure MaibCallback where
  signature : String
  signatureValid : Bool
  payId : Option String
  status : Option String
  orderId : Option String
  statusCode : Option String
  statusMessage : Option String
deriving DecidableEq

inductive HttpResponse where
  | badRequest (error : String)
  | unauthorized (error : String)
  | notFound (error : String)
  | okAck
  | serverError (message : String)
deriving DecidableEq

def successStatuses : List String := ["OK", "COMPLETED", "SUCCESS", "APPROVED"]
def failedStatuses : List String := ["FAILED", "DECLINED", "ERROR"]
def cancelledStatuses : List String := ["CANCELLED", "CANCELED"]

namespace maibRoutes

/-- The retail success branch: `markAsPaid` (never throws) then
`processSuccessfulOrder(...)` fire-and-forget with `.catch(console.error)`. -/
def retailSuccess (orderId : Nat) (now : Int) (db : DB) : DB :=
  match orderService.markAsPaid orderId now db with
  | .error _ => db
  | .ok db1 =>
    match orderService.processSuccessfulOrder orderId db1 with
    | .ok db2 => db2
    | .error _ => db1

/-- The B2B success branch: `markAsPaid` (may throw), then
`generateTickets` inside `try/catch` (a failure is only logged). -/
def b2bSuccess (orderId : Nat) (now : Int) (db : DB) :
    Except AppError DB :=
  match b2bOrderService.markAsPaid orderId none now db with
  | .error e => .error e
  | .ok db1 =>
    match b2bOrderService.generateTickets orderId now db1 with
    | .ok db2 => .ok db2
    | .error _ => .ok db1

/-- `POST /api/maib/callback`.  A thrown `AppError` reaches the error
middleware via `next(error)` and produces a non-2xx response. -/
def postCallback (cb : MaibCallback) (now : Int) (db : DB) :
    DB × HttpResponse :=
  if cb.signature = "" then
    (db, .badRequest "No signature provided")
  else if !cb.signatureValid then
    (db, .unauthorized "Invalid signature")
  else
    match cb.payId with
    | none => (db, .badRequest "Transaction ID is required")
    | some transactionId =>
      -- Find order by transaction ID (check both regular and B2B orders)
      let retail := orderService.getOrderByTransactionId db transactionId
      let b2b := if db.dbError then none
                 else db.b2b_orders.find? (fun o =>
                   o.maib_transaction_id == some transactionId)
      let upperStatus := toUpperCase ((cb.status.getD ""))
      match retail with
      | some order =>
        if successStatuses.contains upperStatus then
          (retailSuccess order.id now db, .okAck)
        else if failedStatuses.contains upperStatus then
          match orderService.markAsFailed order.id (jsOrS cb.statusCode cb.status) db with
          | .ok db' => (db', .okAck)
          | .error e => (db, .serverError e.message)
        else if cancelledStatuses.contains upperStatus then
          match orderService.markAsFailed order.id "CANCELLED" db with
          | .ok db' => (db', .okAck)
          | .error e => (db, .serverError e.message)
        else
          -- Unknown status - log but don't fail
          (db, .okAck)
      | none =>
        match b2b with
        | some b2bOrder =>
          if successStatuses.contains upperStatus then
            match b2bSuccess b2bOrder.id now db with
            | .ok db' => (db', .okAck)
            | .error e => (db, .serverError e.message)
          else if failedStatuses.contains upperStatus then
            match b2bOrderService.updateStatus b2bOrder.id "payment_failed" none
                (some ("Payment failed: " ++ jsOrS cb.statusCode cb.status)) db with
            | .ok db' => (db', .okAck)
            | .error e => (db, .serverError e.message)
          else if cancelledStatuses.contains upperStatus then
            match b2bOrderService.updateStatus b2bOrder.id "cancelled" none
                (some "Payment cancelled by user") db with
            | .ok db' => (db', .okAck)
            | .error e => (db, .serverError e.message)
          else
            (db, .okAck)
        | none => (db, .notFound "Order not found")

end maibRoutes

/-! ## Lifecycle operations and the payment-status invariant -/

/-- The lifecycle operations named by the spec's invariant claim, over
both order spaces. -/
inductive LifecycleOp where
  | retailMarkAsPaid (orderId : Nat)
  | retailMarkAsFailed (orderId : Nat) (reason : String)
  | cancelPendingByEmail (email : String)
  | expireOldPending (hoursOld : Int)
  | b2bMarkAsPaid (orderId : Nat)
  | b2bUpdateStatus (orderId : Nat) (newStatus : String)
      (changedBy note : Option String)
  | b2bCancelOrder (orderId : Nat) (reason : String)
  | b2bGenerateTickets (orderId : Nat)
  | b2bCompleteOrder (orderId : Nat)
deriving DecidableEq

/-- A thrown `AppError` aborts the operation; every modelled throw happens
before the corresponding mutation lands, so the store is left as it was. -/
def recover (r : Except AppError DB) (db : DB) : DB :=
  match r with
  | .ok d => d
  | .error _ => db

/-- Run one lifecycle operation at a given time. -/
def applyOp (db : DB) : Int × LifecycleOp → DB
  | (now, .retailMarkAsPaid oid) => recover (orderService.markAsPaid oid now db) db
  | (_, .retailMarkAsFailed oid reason) =>
      recover (orderService.markAsFailed oid reason db) db
  | (_, .cancelPendingByEmail email) =>
      (orderService.cancelPendingOrdersByEmail email db).1
  | (now, .expireOldPending hoursOld) =>
      (orderService.expireOldPendingOrders now hoursOld db).1
  | (now, .b2bMarkAsPaid oid) =>
      recover (b2bOrderService.markAsPaid oid none now db) db
  | (_, .b2bUpdateStatus oid st changedBy note) =>
      recover (b2bOrderService.updateStatus oid st changedBy note db) db
  | (_, .b2bCancelOrder oid reason) =>
      recover (b2bOrderService.cancelOrder oid reason none db) db
  | (now, .b2bGenerateTickets oid) =>
      recover (b2bOrderService.generateTickets oid now db) db
  | (_, .b2bCompleteOrder oid) =>
      recover (b2bOrderService.completeOrder oid none db) db

/-- Run a timed sequence of lifecycle operations. -/
def applyOps (db : DB) (ops : List (Int × LifecycleOp)) : DB :=
  ops.foldl applyOp db

/-- The statuses the invariant couples with `payment_status = ok`. -/
def paidLikeStatuses : List String :=
  ["paid", "tickets_generated", "tickets_sent", "completed"]

/-- `payment_status = ok ↔ status ∈ {paid, tickets_generated, tickets_sent,
completed}` for one retail order. -/
def orderInvariant (o : Order) : Bool :=
  (o.payment_status == "ok") == paidLikeStatuses.contains o.status

/-- The same invariant for one B2B order. -/
def b2bOrderInvariant (o : B2BOrder) : Bool :=
  (o.payment_status == "ok") == paidLikeStatuses.contains o.status

/-- The invariant over every order of both spaces. -/
def paymentInvariant (db : DB) : Bool :=
  db.orders.all orderInvariant && db.b2b_orders.all b2bOrderInvariant

/-- Well-formedness of the store: `id` is a primary key of `b2b_orders`. -/
def b2bIdsNodup (db : DB) : Prop := (db.b2b_orders.map B2BOrder.id).Nodup

/-- The lifecycle operations that keep `payment_status` and the status in
sync: the remaining three (`updateStatus`, `cancelOrder`, `completeOrder`)
write a status without ever touching `payment_status`. -/
def safeOp : LifecycleOp → Bool
  | .retailMarkAsPaid _ => true
  | .retailMarkAsFailed _ _ => true
  | .cancelPendingByEmail _ => true
  | .expireOldPending _ => true
  | .b2bMarkAsPaid _ => true
  | .b2bGenerateTickets _ => true
  | .b2bUpdateStatus _ _ _ _ => false
  | .b2bCancelOrder _ _ => false
  | .b2bCompleteOrder _ => false

/-! ## Spec-side definitions and concrete instances used by the claims -/

/-- Spec §4.2, read literally: the six ordered checks of `validate`,
returning the error code of the first failing check (`none` when all
pass).  "If a limit is set" is read as "the column is non-NULL". -/
def specFirstFailure (promos : List PromoCode) (orders : List Order)
    (now : Int) (code : String) (totalAmount : ℚ)
    (email : String) (ticketIds : List String) : Option String :=
  match promos.find? (fun p => p.code == toUpperCase code && p.is_active) with
  | none => some "INVALID_CODE"
  | some p =>
    if p.valid_from.elim false (fun vf => decide (now < vf)) then
      some "NOT_YET_ACTIVE"
    else if p.valid_until.elim false (fun vu => decide (vu < now)) then
      some "EXPIRED"
    else if (match p.usage_limit with
             | some l => decide (l ≤ p.used_count)
             | none => false) then some "USAGE_LIMIT"
    else if (match p.min_order_amount with
             | some m => decide (totalAmount < m)
             | none => false) then some "MIN_ORDER_AMOUNT"
    else if (match p.allowed_ticket_ids with
             | some allowed =>
               !allowed.isEmpty && !ticketIds.any (fun i => allowed.contains i)
             | none => false) then some "TICKET_RESTRICTION"
    else if (p.one_per_email && orders.any (fun o =>
               o.promo_code == some p.code &&
               o.customer_email == toLowerCase email &&
               (o.status == "paid" || o.status == "pending"))) then
      some "ALREADY_USED_BY_EMAIL"
    else none

/-- The checklist of spec §4.2 amended for JS truthiness: a `usage_limit`
or `min_order_amount` column that is NULL *or zero* counts as not set. -/
def specFirstFailureTruthy (promos : List PromoCode) (orders : List Order)
    (now : Int) (code : String) (totalAmount : ℚ)
    (email : String) (ticketIds : List String) : Option String :=
  match promos.find? (fun p => p.code == toUpperCase code && p.is_active) with
  | none => some "INVALID_CODE"
  | some p =>
    if p.valid_from.elim false (fun vf => decide (now < vf)) then
      some "NOT_YET_ACTIVE"
    else if p.valid_until.elim false (fun vu => decide (vu < now)) then
      some "EXPIRED"
    else if truthyN p.usage_limit &&
        decide (p.usage_limit.getD 0 ≤ p.used_count) then some "USAGE_LIMIT"
    else if truthyQ p.min_order_amount &&
        decide (totalAmount < p.min_order_amount.getD 0) then
      some "MIN_ORDER_AMOUNT"
    else if (match p.allowed_ticket_ids with
             | some allowed =>
               !allowed.isEmpty && !ticketIds.any (fun i => allowed.contains i)
             | none => false) then some "TICKET_RESTRICTION"
    else if (p.one_per_email && orders.any (fun o =>
               o.promo_code == some p.code &&
               o.customer_email == toLowerCase email &&
               (o.status == "paid" || o.status == "pending"))) then
      some "ALREADY_USED_BY_EMAIL"
    else none

/-- C7 counterexample instance: an active percentage promo whose
`discount_percent` is 200 (nothing in the source constrains the
percentage to be at most 100). -/
def c7promo : PromoCode :=
  ⟨"MEGA", true, none, none, none, 0, none, some 200, none, none, false⟩

def c7db : DB := ⟨[], [], [c7promo], [], [], [], [], [], [], [], 0, false⟩

def c7opts : ValidatePromoOptions := ⟨"MEGA", 100, none, none⟩

/-- C7 witness instance: an ordinary 10-percent promo. -/
def c7wpromo : PromoCode :=
  ⟨"TEN", true, none, none, none, 0, none, some 10, none, none, false⟩

def c7wdb : DB := ⟨[], [], [c7wpromo], [], [], [], [], [], [], [], 0, false⟩

def c7wopts : ValidatePromoOptions := ⟨"TEN", 200, none, none⟩

/-- C6 counterexample instance: an active promo whose `usage_limit`
column holds `0` while `used_count` is `5`. -/
def c6promo : PromoCode :=
  ⟨"ZERO", true, none, none, some 0, 5, none, some 10, none, none, false⟩

def c6db : DB := ⟨[], [], [c6promo], [], [], [], [], [], [], [], 0, false⟩

def c6opts : ValidatePromoOptions := ⟨"ZERO", 100, some "a@b.md", some ["t1"]⟩

/-- C6 witness instance: an expired promo. -/
def c6wpromo : PromoCode :=
  ⟨"OLD", true, none, some 50, none, 0, none, some 10, none, none, false⟩

def c6wdb : DB := ⟨[], [], [c6wpromo], [], [], [], [], [], [], [], 0, false⟩

/-- C9 instances: a promo restricted to ticket `ta`, and a one-per-email
promo already used by `c9order`. -/
def c9promoA : PromoCode :=
  ⟨"RESTR", true, none, none, none, 0, none, some 10, none, some ["ta"], false⟩

def c9dbA : DB := ⟨[], [], [c9promoA], [], [], [], [], [], [], [], 0, false⟩

def c9promoB : PromoCode :=
  ⟨"ONE", true, none, none, none, 1, none, some 10, none, none, true⟩

def c9order : Order :=
  ⟨7, "FL-7", "paid", "x@y.md", "X Y", "0", 100, 10, some "ONE", "ok",
    "ro", "127.0.0.1", none, none, some 5, 0, 0, false⟩

def c9dbB : DB := ⟨[], [], [c9promoB], [c9order], [], [], [], [], [], [], 8, false⟩

/-- Observational lookup of a retail order row by id. -/
def getOrderById? (db : DB) (oid : Nat) : Option Order :=
  db.orders.find? (fun o => o.id == oid)

/-- Observational lookup of a B2B order row by id. -/
def getB2BOrderById? (db : DB) (oid : Nat) : Option B2BOrder :=
  db.b2b_orders.find? (fun o => o.id == oid)

/-- C4/C5/C2 instances: a store holding one pending retail order linked to
transaction `TX1`, with one order item, and one pending B2B order linked
to transaction `TXB`. -/
def cbOrder : Order :=
  ⟨1, "FL-1", "pending", "c@d.md", "C D", "0", 300, 0, none, "pending",
    "ro", "127.0.0.1", some "TX1", none, none, 0, 0, false⟩

def cbItem : OrderItem :=
  ⟨2, 1, "ta", none, 1, 300, "TC0", "code=TC0;ts=0", none, false⟩

def cbB2BOrder : B2BOrder :=
  ⟨3, "B2B-3", "Firm", none, none, "P Q", "p@q.md", "0", "online",
    "pending", "pending", 9000, 10, 900, 8100, none, none, none, "ro",
    none, some "TXB", none, none, none, 0⟩

def cbDB : DB :=
  ⟨[], [], [], [cbOrder], [cbItem], [cbB2BOrder], [], [], [], [], 10, false⟩

/-- A callback with no signature at all. -/
def c4cbMissing : MaibCallback :=
  ⟨"", true, some "TX1", some "OK", none, none, none⟩

/-- A callback whose signature fails verification. -/
def c4cbBadSig : MaibCallback :=
  ⟨"sig", false, some "TX1", some "OK", none, none, none⟩

/-- C3 instances: one ticket priced 100 and a promo code that expired at
time 999 (so it is invalid at `now = 1000`). -/
def c3ticket : Ticket := ⟨"t1", 100⟩

def c3promo : PromoCode :=
  ⟨"SUMMER", true, none, some 999, none, 0, none, some 10, none, none, false⟩

def c3db : DB := ⟨[c3ticket], [], [c3promo], [], [], [], [], [], [], [], 0, false⟩

def c3params : CreateOrderRequest :=
  ⟨⟨"a@b.md", "A", "B", "0"⟩, [⟨"t1", none, 1⟩], some "SUMMER", "ro", "ip"⟩

/-- The C3 order creation, run at time 1000 against `c3db`. -/
def c3result : Except AppError (DB × Order) :=
  orderService.createOrder c3params 1000 c3db

/-- The order row produced by the C3 order creation. -/
def c3ord : Order :=
  ⟨1, "FL-1", "pending", "a@b.md", "A B", "0", 100, 0, some "SUMMER", "pending",
    "ro", "ip", none, none, none, 1000, 0, false⟩

/-- The item row produced by the C3 order creation. -/
def c3item : OrderItem :=
  ⟨2, 1, "t1", none, 1, 100, "TC0", "code=TC0;ts=1000", none, false⟩

/-- The store state produced by the C3 order creation: note the promo
`used_count` has become 1 although validation failed. -/
def c3db' : DB :=
  ⟨[c3ticket], [],
    [⟨"SUMMER", true, none, some 999, none, 1, none, some 10, none, none, false⟩],
    [c3ord], [c3item], [], [], [], [], [], 3, false⟩

/-- A paid B2B order (`paid` / `ok`), satisfying the invariant. -/
def c1paid : B2BOrder :=
  ⟨1, "B2B-1", "ACME", none, none, "C", "c@acme.md", "0", "transfer", "paid",
    "ok", 100, 0, 0, 100, none, none, none, "ro", none, none, some 10, none,
    none, 0⟩

/-- A store holding only the paid B2B order `c1paid`. -/
def c1db : DB := ⟨[], [], [], [], [], [c1paid], [], [], [], [], 2, false⟩

/-- A pending retail order for the C1 safe-operation run. -/
def c1wRetail : Order :=
  ⟨1, "FL-1", "pending", "w@x.md", "W", "0", 50, 0, none, "pending", "ro",
    "ip", none, none, none, 0, 0, false⟩

/-- A pending B2B order for the C1 safe-operation run. -/
def c1wB2B : B2BOrder :=
  ⟨2, "B2B-2", "ACME", none, none, "C", "c@acme.md", "0", "transfer",
    "pending", "pending", 100, 0, 0, 100, none, none, none, "ro", none, none,
    none, none, none, 0⟩

/-- The single aggregated item of `c1wB2B`. -/
def c1wItem : B2BOrderItem :=
  ⟨3, 2, "t1", none, 1, 100, 0, 100, none, none, none, none⟩

/-- A store holding one pending retail order and one pending B2B order. -/
def c1wdb : DB :=
  ⟨[], [], [], [c1wRetail], [], [c1wB2B], [c1wItem], [], [], [], 4, false⟩

/-- A sequence of invariant-preserving lifecycle operations on `c1wdb`. -/
def c1wops : List (Int × LifecycleOp) :=
  [(5, .retailMarkAsPaid 1), (6, .b2bMarkAsPaid 2), (7, .b2bGenerateTickets 2),
   (8, .cancelPendingByEmail "w@x.md"), (9, .expireOldPending 24)]

/-! ## C8: the B2B tier lookup and discount calculation -/

/-- Closed form of `getDiscountTier` over the quantity ranges. -/
theorem getDiscountTier_eval (q : Nat) :
    b2bDiscountService.getDiscountTier q =
      if q < 50 then none
      else if q ≤ 99 then some ⟨50, some 99, 10, "50-99 билетов"⟩
      else if q ≤ 149 then some ⟨100, some 149, 12, "100-149 билетов"⟩
      else if q ≤ 199 then some ⟨150, some 199, 15, "150-199 билетов"⟩
      else some ⟨200, none, 20, "200+ билетов"⟩ := by
  have hm : ∀ (lo : Nat) (hi : Option Nat) (p : ℚ) (s : String),
      b2bDiscountService.tierMatches q ⟨lo, hi, p, s⟩ =
        (decide (lo ≤ q) && hi.elim true (fun mx => decide (q ≤ mx))) := by
    intro lo hi p s
    cases hi <;> simp [b2bDiscountService.tierMatches, Option.elim]
  unfold b2bDiscountService.getDiscountTier DISCOUNT_TIERS MIN_B2B_QUANTITY
  by_cases h1 : q < 50
  · simp [h1]
  · by_cases h2 : q ≤ 99
    · have : b2bDiscountService.tierMatches q ⟨50, some 99, 10, "50-99 билетов"⟩ = true := by
        rw [hm]; simp [Option.elim]; omega
      simp [h1, h2, List.find?_cons_of_pos _ this]
    · by_cases h3 : q ≤ 149
      · have f1 : ¬ (b2bDiscountService.tierMatches q
            ⟨50, some 99, 10, "50-99 билетов"⟩ = true) := by
          rw [hm]; simp [Option.elim]; omega
        have t2 : b2bDiscountService.tierMatches q
            ⟨100, some 149, 12, "100-149 билетов"⟩ = true := by
          rw [hm]; simp [Option.elim]; omega
        simp [h1, h2, h3, List.find?_cons_of_neg _ f1, List.find?_cons_of_pos _ t2]
      · by_cases h4 : q ≤ 199
        · have f1 : ¬ (b2bDiscountService.tierMatches q
              ⟨50, some 99, 10, "50-99 билетов"⟩ = true) := by
            rw [hm]; simp [Option.elim]; omega
          have f2 : ¬ (b2bDiscountService.tierMatches q
              ⟨100, some 149, 12, "100-149 билетов"⟩ = true) := by
            rw [hm]; simp [Option.elim]; omega
          have t3 : b2bDiscountService.tierMatches q
              ⟨150, some 199, 15, "150-199 билетов"⟩ = true := by
            rw [hm]; simp [Option.elim]; omega
          simp [h1, h2, h3, h4, List.find?_cons_of_neg _ f1,
            List.find?_cons_of_neg _ f2, List.find?_cons_of_pos _ t3]
        · have f1 : ¬ (b2bDiscountService.tierMatches q
              ⟨50, some 99, 10, "50-99 билетов"⟩ = true) := by
            rw [hm]; simp [Option.elim]; omega
          have f2 : ¬ (b2bDiscountService.tierMatches q
              ⟨100, some 149, 12, "100-149 билетов"⟩ = true) := by
            rw [hm]; simp [Option.elim]; omega
          have f3 : ¬ (b2bDiscountService.tierMatches q
              ⟨150, some 199, 15, "150-199 билетов"⟩ = true) := by
            rw [hm]; simp [Option.elim]; omega
          have t4 : b2bDiscountService.tierMatches q
              ⟨200, none, 20, "200+ билетов"⟩ = true := by
            rw [hm]; simp [Option.elim]; omega
          simp [h1, h2, h3, h4, List.find?_cons_of_neg _ f1,
            List.find?_cons_of_neg _ f2, List.find?_cons_of_neg _ f3,
            List.find?_cons_of_pos _ t4]

/-- C8.  For every quantity `q`, `getDiscountTier` returns exactly the
containing tier of the static table (none below 50, so percent 0), the
percent table is `[50,99]→10`, `[100,149]→12`, `[150,199]→15`,
`[200,∞)→20`, `calculateDiscount` returns
`discountAmount = round(totalAmount * percent / 100, 2 decimals)` and
`finalAmount = totalAmount - discountAmount`, and the concrete scenario
`120 tickets at unit price 150` yields total `18000`, discount `2160`
and final `15840`. -/
theorem c8_b2b_tier_discount :
    (∀ q : Nat, b2bDiscountService.getDiscountTier q = none ↔ q < 50) ∧
    (∀ (q : Nat) (t : B2BDiscountTier),
      b2bDiscountService.getDiscountTier q = some t ↔
        (t ∈ DISCOUNT_TIERS ∧ b2bDiscountService.tierMatches q t = true)) ∧
    (∀ q : Nat, b2bDiscountService.calculateDiscountPercent q =
      if q < 50 then 0 else if q ≤ 99 then 10 else if q ≤ 149 then 12
      else if q ≤ 199 then 15 else 20) ∧
    (∀ (a : ℚ) (q : Nat),
      (b2bDiscountService.calculateDiscount a q).discountAmount =
        round2 (a * b2bDiscountService.calculateDiscountPercent q / 100) ∧
      (b2bDiscountService.calculateDiscount a q).finalAmount =
        a - (b2bDiscountService.calculateDiscount a q).discountAmount) ∧
    (b2bDiscountService.calculateDiscount (150 * 120) 120).totalAmount = 18000 ∧
    (b2bDiscountService.calculateDiscount (150 * 120) 120).discountAmount = 2160 ∧
    (b2bDiscountService.calculateDiscount (150 * 120) 120).finalAmount = 15840 := by
  have hm : ∀ (lo : Nat) (hi : Option Nat) (p : ℚ) (s : String) (q : Nat),
      b2bDiscountService.tierMatches q ⟨lo, hi, p, s⟩ =
        (decide (lo ≤ q) && hi.elim true (fun mx => decide (q ≤ mx))) := by
    intro lo hi p s q
    cases hi <;> simp [b2bDiscountService.tierMatches, Option.elim]
  refine ⟨?_, ?_, ?_, ?_, ?_, ?_, ?_⟩
  · intro q
    rw [getDiscountTier_eval]
    split_ifs with h1 h2 h3 h4 <;> simp <;> omega
  · intro q t
    rw [getDiscountTier_eval]
    constructor
    · intro h
      split_ifs at h with h1 h2 h3 h4 <;>
        (try cases h) <;>
        refine ⟨by simp [DISCOUNT_TIERS], ?_⟩ <;>
        (rw [hm]; simp [Option.elim]; omega)
    · rintro ⟨ht, hmatch⟩
      simp only [DISCOUNT_TIERS, List.mem_cons, List.not_mem_nil, or_false] at ht
      rcases ht with rfl | rfl | rfl | rfl <;>
        (rw [hm] at hmatch; simp [Option.elim] at hmatch) <;>
        split_ifs with h1 h2 h3 h4 <;> first | rfl | omega
  · intro q
    unfold b2bDiscountService.calculateDiscountPercent
    rw [getDiscountTier_eval]
    split_ifs <;> rfl
  · intro a q
    unfold b2bDiscountService.calculateDiscount
      b2bDiscountService.calculateDiscountPercent round2
    cases b2bDiscountService.getDiscountTier q <;> simp
  · show (b2bDiscountService.calculateDiscount (150 * 120) 120).totalAmount = 18000
    unfold b2bDiscountService.calculateDiscount
    norm_num
  · show (b2bDiscountService.calculateDiscount (150 * 120) 120).discountAmount = 2160
    unfold b2bDiscountService.calculateDiscount
    rw [getDiscountTier_eval]
    norm_num [jsRound]
  · show (b2bDiscountService.calculateDiscount (150 * 120) 120).finalAmount = 15840
    unfold b2bDiscountService.calculateDiscount
    rw [getDiscountTier_eval]
    norm_num [jsRound]

/-! ## C7: the discount returned for an accepted promo code -/

/-- `Math.round x` never exceeds a whole-number bound that `x` respects. -/
theorem jsRound_le_natCast (x : ℚ) (n : ℕ) (h : x ≤ n) : (jsRound x : ℚ) ≤ n := by
  have hfloor : jsRound x ≤ (n : ℤ) := by
    unfold jsRound
    have h2 : x + 1/2 ≤ (((n : ℤ) : ℚ)) + 1/2 := by push_cast; linarith
    calc ⌊x + 1/2⌋ ≤ ⌊(((n : ℤ) : ℚ)) + 1/2⌋ := Int.floor_le_floor h2
      _ = (n : ℤ) + ⌊(1/2 : ℚ)⌋ := by rw [add_comm, Int.floor_add_int, add_comm]
      _ = (n : ℤ) := by norm_num
  exact_mod_cast hfloor

/-- C7, counterexample.  The claim says the discount returned for an
accepted promo never exceeds the order total, but for an accepted
200-percent promo on a total of 100 `validatePromoCode` returns
`discountAmount = 200 > 100`. -/
theorem c7_discount_counterexample :
    (promoService.validatePromoCode c7db 0 c7opts).valid = true ∧
    (promoService.validatePromoCode c7db 0 c7opts).discountAmount = 200 ∧
    c7opts.totalAmount = 100 ∧
    ¬ ((promoService.validatePromoCode c7db 0 c7opts).discountAmount ≤
        c7opts.totalAmount) := by
  have hup : toUpperCase "MEGA" = "MEGA" := by decide
  norm_num [promoService.validatePromoCode, promoService.promoLookup,
    promoService.invalidResult, c7db, c7opts, c7promo, hup, List.find?,
    truthyQ, truthyN, jsRound, Option.elim]

set_option maxHeartbeats 1000000 in
/-- On the success path the discount is computed exactly as the
`// Calculate discount` block of `validatePromoCode` writes it. -/
theorem validate_success_discountAmount (db : DB) (now : Int)
    (opts : ValidatePromoOptions) (p : PromoCode)
    (hlookup : promoService.promoLookup db.promo_codes db.dbError opts.code = some p)
    (hvalid : (promoService.validatePromoCode db now opts).valid = true) :
    (promoService.validatePromoCode db now opts).discountAmount =
      if truthyQ p.discount_percent = true then
        (jsRound (opts.totalAmount * p.discount_percent.getD 0 / 100) : ℚ)
      else if truthyQ p.discount_amount = true then
        min (p.discount_amount.getD 0) opts.totalAmount
      else 0 := by
  unfold promoService.validatePromoCode at hvalid ⊢
  rw [hlookup] at hvalid ⊢
  dsimp only at hvalid ⊢
  split_ifs at hvalid ⊢ <;>
    simp_all [promoService.invalidResult]

/-- C7, amended.  For every promo code accepted by `validatePromoCode`,
the returned `discountAmount` equals `round(totalAmount * percent / 100)`
when the promo is percentage-based (nonzero `discount_percent`) and
`min(fixedAmount, totalAmount)` when it is fixed-amount; the fixed-amount
discount never exceeds the order total, and the percentage discount never
exceeds it provided the total is a whole number of currency units and
`discount_percent ≤ 100` (the source does not constrain the percentage,
see the counterexample). -/
theorem c7_discount_formula_amended (db : DB) (now : Int)
    (opts : ValidatePromoOptions) (p : PromoCode)
    (hlookup : promoService.promoLookup db.promo_codes db.dbError opts.code = some p)
    (hvalid : (promoService.validatePromoCode db now opts).valid = true) :
    (truthyQ p.discount_percent = true →
      (promoService.validatePromoCode db now opts).discountAmount =
        (jsRound (opts.totalAmount * p.discount_percent.getD 0 / 100) : ℚ)) ∧
    (truthyQ p.discount_percent = false → truthyQ p.discount_amount = true →
      (promoService.validatePromoCode db now opts).discountAmount =
        min (p.discount_amount.getD 0) opts.totalAmount) ∧
    (truthyQ p.discount_percent = false → truthyQ p.discount_amount = true →
      (promoService.validatePromoCode db now opts).discountAmount ≤
        opts.totalAmount) ∧
    (∀ n : ℕ, opts.totalAmount = n → p.discount_percent.getD 0 ≤ 100 →
      truthyQ p.discount_percent = true →
      (promoService.validatePromoCode db now opts).discountAmount ≤
        opts.totalAmount) := by
  have key := validate_success_discountAmount db now opts p hlookup hvalid
  refine ⟨?_, ?_, ?_, ?_⟩
  · intro hpct
    rw [key, if_pos hpct]
  · intro hpct hamt
    rw [key, if_neg (by simp [hpct]), if_pos hamt]
  · intro hpct hamt
    rw [key, if_neg (by simp [hpct]), if_pos hamt]
    exact min_le_right _ _
  · intro n hn hle hpct
    rw [key, if_pos hpct, hn]
    apply jsRound_le_natCast
    rcases hp : p.discount_percent with _ | pct
    · rw [hp] at hpct
      simp [truthyQ] at hpct
    · rw [hp] at hle
      simp only [Option.getD_some] at hle ⊢
      rw [div_le_iff₀ (by norm_num : (0:ℚ) < 100)]
      have hn0 : (0:ℚ) ≤ (n : ℚ) := by positivity
      nlinarith

/-- C7 witness: the amended theorem applied to a concrete accepted
10-percent promo on a total of 200. -/
theorem c7_discount_formula_amended_witness :
    (truthyQ c7wpromo.discount_percent = true →
      (promoService.validatePromoCode c7wdb 0 c7wopts).discountAmount =
        (jsRound (c7wopts.totalAmount * c7wpromo.discount_percent.getD 0 / 100) : ℚ)) ∧
    (truthyQ c7wpromo.discount_percent = false →
      truthyQ c7wpromo.discount_amount = true →
      (promoService.validatePromoCode c7wdb 0 c7wopts).discountAmount =
        min (c7wpromo.discount_amount.getD 0) c7wopts.totalAmount) ∧
    (truthyQ c7wpromo.discount_percent = false →
      truthyQ c7wpromo.discount_amount = true →
      (promoService.validatePromoCode c7wdb 0 c7wopts).discountAmount ≤
        c7wopts.totalAmount) ∧
    (∀ n : ℕ, c7wopts.totalAmount = n → c7wpromo.discount_percent.getD 0 ≤ 100 →
      truthyQ c7wpromo.discount_percent = true →
      (promoService.validatePromoCode c7wdb 0 c7wopts).discountAmount ≤
        c7wopts.totalAmount) :=
  c7_discount_formula_amended c7wdb 0 c7wopts c7wpromo
    (by norm_num [promoService.promoLookup, c7wdb, c7wopts, c7wpromo,
      List.find?, show toUpperCase "TEN" = "TEN" from by decide])
    (by norm_num [promoService.validatePromoCode, promoService.promoLookup,
      c7wdb, c7wopts, c7wpromo, List.find?, truthyN, truthyQ, Option.elim,
      show toUpperCase "TEN" = "TEN" from by decide])

/-! ## C6: the six ordered checks of `validatePromoCode` -/

/-- C6, counterexample.  The claim reads check (3) as firing whenever a
`usage_limit` is set and `used_count` has reached it; for a stored
`usage_limit` of `0` with `used_count = 5` the checklist of the claim
yields `USAGE_LIMIT`, but `validatePromoCode` accepts the code because the
JS truthiness test `promo.usage_limit && ...` skips a zero limit. -/
theorem c6_checks_counterexample :
    (promoService.validatePromoCode c6db 0 c6opts).valid = true ∧
    (promoService.validatePromoCode c6db 0 c6opts).errorCode = none ∧
    specFirstFailure c6db.promo_codes c6db.orders 0 c6opts.code
      c6opts.totalAmount "a@b.md" ["t1"] = some "USAGE_LIMIT" := by
  have hup : toUpperCase "ZERO" = "ZERO" := by decide
  norm_num [promoService.validatePromoCode, promoService.promoLookup,
    specFirstFailure, promoService.invalidResult, c6db, c6opts, c6promo,
    hup, List.find?, truthyN, truthyQ, Option.elim]

set_option maxHeartbeats 1000000 in
/-- The result of `validatePromoCode` is valid exactly when it carries no
error code. -/
theorem validate_valid_iff_errorCode_none (db : DB) (now : Int)
    (opts : ValidatePromoOptions) :
    ((promoService.validatePromoCode db now opts).valid = true ↔
      (promoService.validatePromoCode db now opts).errorCode = none) := by
  unfold promoService.validatePromoCode
  cases promoService.promoLookup db.promo_codes db.dbError opts.code with
  | none => simp [promoService.invalidResult]
  | some p =>
    dsimp only
    split_ifs <;> simp [promoService.invalidResult]

set_option maxHeartbeats 1000000 in
/-- The error code of `validatePromoCode` with both optional arguments
supplied is the first failure of the truthiness-amended checklist. -/
theorem validate_errorCode_eq_checklist (db : DB) (now : Int) (code : String)
    (total : ℚ) (email : String) (tids : List String)
    (hdb : db.dbError = false) (hem : email ≠ "") :
    (promoService.validatePromoCode db now ⟨code, total, some email, some tids⟩).errorCode =
      specFirstFailureTruthy db.promo_codes db.orders now code total email tids := by
  have hem' : (email == "") = false := by
    simp [hem]
  have hlook : promoService.promoLookup db.promo_codes db.dbError code =
      db.promo_codes.find? (fun p => p.code == toUpperCase code && p.is_active) := by
    simp [promoService.promoLookup, hdb]
  unfold promoService.validatePromoCode specFirstFailureTruthy
  dsimp only
  rw [hlook]
  cases hfind : db.promo_codes.find?
      (fun p => p.code == toUpperCase code && p.is_active) with
  | none => rfl
  | some p =>
    dsimp only
    rw [hem']
    simp only [hdb, Bool.not_false, Bool.and_true]
    cases hat : p.allowed_ticket_ids <;>
      (dsimp only;
       simp only [apply_ite PromoValidationResult.errorCode,
         promoService.invalidResult];
       try rfl)

/-- C6, amended.  With both optional arguments supplied,
`validatePromoCode` performs the six checks in the claimed order,
short-circuiting on the first failure with the claimed error code, where
a `usage_limit` or `min_order_amount` of zero counts as "no limit set"
(JS truthiness), as the counterexample forces. -/
theorem c6_checks_order_amended (db : DB) (now : Int) (code : String)
    (total : ℚ) (email : String) (tids : List String)
    (hdb : db.dbError = false) (hem : email ≠ "") :
    (promoService.validatePromoCode db now ⟨code, total, some email, some tids⟩).errorCode =
      specFirstFailureTruthy db.promo_codes db.orders now code total email tids ∧
    ((promoService.validatePromoCode db now ⟨code, total, some email, some tids⟩).valid = true ↔
      specFirstFailureTruthy db.promo_codes db.orders now code total email tids = none) := by
  have h1 := validate_errorCode_eq_checklist db now code total email tids hdb hem
  refine ⟨h1, ?_⟩
  rw [validate_valid_iff_errorCode_none, h1]

/-- C6 witness: the amended theorem applied to a concrete store holding
one expired promo code. -/
theorem c6_checks_order_amended_witness :
    (promoService.validatePromoCode c6wdb 100
        ⟨"OLD", 30, some "e@f.md", some ["t1"]⟩).errorCode =
      specFirstFailureTruthy c6wdb.promo_codes c6wdb.orders 100 "OLD" 30
        "e@f.md" ["t1"] ∧
    ((promoService.validatePromoCode c6wdb 100
        ⟨"OLD", 30, some "e@f.md", some ["t1"]⟩).valid = true ↔
      specFirstFailureTruthy c6wdb.promo_codes c6wdb.orders 100 "OLD" 30
        "e@f.md" ["t1"] = none) :=
  c6_checks_order_amended c6wdb 100 "OLD" 30 "e@f.md" ["t1"] (by decide)
    (by decide)

/-! ## C9: omitted optional arguments skip the corresponding checks -/

set_option maxHeartbeats 2000000 in
/-- C9.  When the caller supplies no `ticketIds`, `validatePromoCode`
never returns `TICKET_RESTRICTION` (the check is skipped even for a promo
with a non-empty `allowed_ticket_ids`, which can then validate as
`Valid`); when no `email` is supplied, it never returns
`ALREADY_USED_BY_EMAIL` (even for a `one_per_email` promo already used by
a stored order). -/
theorem c9_optional_args_skip_checks :
    (∀ (db : DB) (now : Int) (code : String) (total : ℚ) (email : Option String),
      ((promoService.validatePromoCode db now ⟨code, total, email, none⟩).errorCode ==
        some "TICKET_RESTRICTION") = false) ∧
    (∀ (db : DB) (now : Int) (code : String) (total : ℚ)
        (tids : Option (List String)),
      ((promoService.validatePromoCode db now ⟨code, total, none, tids⟩).errorCode ==
        some "ALREADY_USED_BY_EMAIL") = false) ∧
    c9promoA.allowed_ticket_ids = some ["ta"] ∧
    (promoService.validatePromoCode c9dbA 0 ⟨"RESTR", 100, none, none⟩).valid = true ∧
    c9promoB.one_per_email = true ∧ c9order.promo_code = some "ONE" ∧
    c9order.status = "paid" ∧
    (promoService.validatePromoCode c9dbB 0 ⟨"ONE", 100, none, some ["ta"]⟩).valid = true := by
  refine ⟨?_, ?_, rfl, ?_, rfl, rfl, rfl, ?_⟩
  · intro db now code total email
    unfold promoService.validatePromoCode
    dsimp only
    cases hfind : promoService.promoLookup db.promo_codes db.dbError code with
    | none => rfl
    | some p =>
      dsimp only
      cases hat : p.allowed_ticket_ids <;>
        (dsimp only; split_ifs <;>
          first
          | rfl
          | exact (False.elim (by assumption)))
  · intro db now code total tids
    unfold promoService.validatePromoCode
    dsimp only
    cases hfind : promoService.promoLookup db.promo_codes db.dbError code with
    | none => rfl
    | some p =>
      dsimp only
      split_ifs <;>
        first
        | rfl
        | exact (False.elim (by assumption))
  · have hup : toUpperCase "RESTR" = "RESTR" := by decide
    norm_num [promoService.validatePromoCode, promoService.promoLookup,
      promoService.invalidResult, c9dbA, c9promoA, hup, List.find?,
      truthyN, truthyQ, Option.elim]
  · have hup : toUpperCase "ONE" = "ONE" := by decide
    norm_num [promoService.validatePromoCode, promoService.promoLookup,
      promoService.invalidResult, c9dbB, c9promoB, hup, List.find?,
      truthyN, truthyQ, Option.elim]

/-! ## C10: the retail update helpers never raise -/

/-- C10.  `orderService.markAsPaid`, `markAsFailed` and
`updateTransactionId` always return normally; when the store update fails
(`dbError := true`) the error is only logged and the state — including
the orders table — is completely unchanged, so a caller cannot observe
that the transition did not take effect. -/
theorem c10_retail_updates_never_throw (db : DB) (oid : Nat) (now : Int)
    (reason tx : String) :
    (∃ db1, orderService.markAsPaid oid now db = .ok db1) ∧
    (∃ db2, orderService.markAsFailed oid reason db = .ok db2) ∧
    (∃ db3, orderService.updateTransactionId oid tx db = .ok db3) ∧
    orderService.markAsPaid oid now { db with dbError := true } =
      .ok { db with dbError := true } ∧
    orderService.markAsFailed oid reason { db with dbError := true } =
      .ok { db with dbError := true } ∧
    orderService.updateTransactionId oid tx { db with dbError := true } =
      .ok { db with dbError := true } := by
  refine ⟨?_, ?_, ?_, ?_, ?_, ?_⟩ <;>
    cases hdb : db.dbError <;>
      simp [orderService.markAsPaid, orderService.markAsFailed,
        orderService.updateTransactionId, hdb]

/-! ## C4: unauthenticated callbacks reject without touching the store -/

/-- C4.  A callback whose signature is missing is answered 400 and one
whose signature fails verification is answered 401; in both cases the
returned store is exactly the input store — no order status, no payment
status, no email log, nothing changes. -/
theorem c4_bad_signature_rejects_without_mutation (db : DB)
    (cb : MaibCallback) (now : Int) :
    (cb.signature = "" →
      maibRoutes.postCallback cb now db = (db, .badRequest "No signature provided")) ∧
    (cb.signature ≠ "" → cb.signatureValid = false →
      maibRoutes.postCallback cb now db = (db, .unauthorized "Invalid signature")) := by
  constructor
  · intro h
    simp [maibRoutes.postCallback, h]
  · intro h hv
    simp [maibRoutes.postCallback, h, hv]

/-- C4 witness: both rejection paths at a concrete store with a pending
order. -/
theorem c4_bad_signature_rejects_without_mutation_witness :
    maibRoutes.postCallback c4cbMissing 0 cbDB =
      (cbDB, .badRequest "No signature provided") ∧
    maibRoutes.postCallback c4cbBadSig 0 cbDB =
      (cbDB, .unauthorized "Invalid signature") :=
  ⟨(c4_bad_signature_rejects_without_mutation cbDB c4cbMissing 0).1 rfl,
   (c4_bad_signature_rejects_without_mutation cbDB c4cbBadSig 0).2
     (by decide) rfl⟩

/-! ## Helper lemmas about row updates and keyed lookups -/

/-- `find?` commutes with a row update that does not change the searched
predicate. -/
theorem find?_map_invariant {α : Type} (l : List α) (p : α → Bool)
    (f : α → α) (hf : ∀ a, p (f a) = p a) :
    (l.map f).find? p = (l.find? p).map f := by
  induction l with
  | nil => rfl
  | cons a as ih =>
    by_cases h : p a = true
    · rw [List.map_cons, List.find?_cons_of_pos _ (by rw [hf]; exact h),
        List.find?_cons_of_pos _ h]
      rfl
    · rw [List.map_cons, List.find?_cons_of_neg _ (by rw [hf]; simpa using h),
        List.find?_cons_of_neg _ (by simpa using h), ih]

/-- In a table whose key column is duplicate-free, looking a member row up
by its key finds exactly that row. -/
theorem find?_key_of_mem_nodup {α β : Type} [DecidableEq β] (key : α → β)
    (l : List α) (a : α) (hmem : a ∈ l) (hnd : (l.map key).Nodup) :
    l.find? (fun x => key x == key a) = some a := by
  induction l with
  | nil => simp at hmem
  | cons b bs ih =>
    rw [List.map_cons, List.nodup_cons] at hnd
    rcases List.mem_cons.mp hmem with rfl | hmem'
    · exact List.find?_cons_of_pos _ (by simp)
    · have hne : (key b == key a) = false := by
        simp only [beq_eq_false_iff_ne, ne_eq]
        intro he
        apply hnd.1
        rw [he]
        exact List.mem_map_of_mem key hmem'
      simp only [List.find?, hne]
      exact ih hmem' hnd.2

/-! ## C5: the status-bucket mapping of the webhook handler -/

/-- Reduction of `postCallback` for an authenticated callback whose
transaction id resolves to a retail order. -/
theorem postCallback_retail_eq (db : DB) (cb : MaibCallback) (now : Int)
    (tx : String) (o : Order)
    (hs : cb.signature ≠ "") (hv : cb.signatureValid = true)
    (hpay : cb.payId = some tx)
    (hfound : orderService.getOrderByTransactionId db tx = some o) :
    maibRoutes.postCallback cb now db =
      (if successStatuses.contains (toUpperCase (cb.status.getD "")) then
        (maibRoutes.retailSuccess o.id now db, .okAck)
      else if failedStatuses.contains (toUpperCase (cb.status.getD "")) then
        match orderService.markAsFailed o.id (jsOrS cb.statusCode cb.status) db with
        | .ok db' => (db', .okAck)
        | .error e => (db, .serverError e.message)
      else if cancelledStatuses.contains (toUpperCase (cb.status.getD "")) then
        match orderService.markAsFailed o.id "CANCELLED" db with
        | .ok db' => (db', .okAck)
        | .error e => (db, .serverError e.message)
      else (db, .okAck)) := by
  unfold maibRoutes.postCallback
  rw [if_neg hs,
    if_neg (show ¬ ((!cb.signatureValid) = true) by rw [hv]; simp)]
  rw [hpay]
  dsimp only
  rw [hfound]

/-- Reduction of `postCallback` for an authenticated callback whose
transaction id resolves to a B2B order only. -/
theorem postCallback_b2b_eq (db : DB) (cb : MaibCallback) (now : Int)
    (tx : String) (bo : B2BOrder)
    (hs : cb.signature ≠ "") (hv : cb.signatureValid = true)
    (hpay : cb.payId = some tx) (hdb : db.dbError = false)
    (hnone : orderService.getOrderByTransactionId db tx = none)
    (hfound : db.b2b_orders.find?
      (fun o => o.maib_transaction_id == some tx) = some bo) :
    maibRoutes.postCallback cb now db =
      (if successStatuses.contains (toUpperCase (cb.status.getD "")) then
        match maibRoutes.b2bSuccess bo.id now db with
        | .ok db' => (db', .okAck)
        | .error e => (db, .serverError e.message)
      else if failedStatuses.contains (toUpperCase (cb.status.getD "")) then
        match b2bOrderService.updateStatus bo.id "payment_failed" none
            (some ("Payment failed: " ++ jsOrS cb.statusCode cb.status)) db with
        | .ok db' => (db', .okAck)
        | .error e => (db, .serverError e.message)
      else if cancelledStatuses.contains (toUpperCase (cb.status.getD "")) then
        match b2bOrderService.updateStatus bo.id "cancelled" none
            (some "Payment cancelled by user") db with
        | .ok db' => (db', .okAck)
        | .error e => (db, .serverError e.message)
      else (db, .okAck)) := by
  unfold maibRoutes.postCallback
  rw [if_neg hs,
    if_neg (show ¬ ((!cb.signatureValid) = true) by rw [hv]; simp)]
  rw [hpay]
  dsimp only
  rw [hnone]
  dsimp only
  rw [hdb]
  rw [if_neg (show ¬ (false = true) by simp)]
  rw [hfound]

/-- A by-id retail row update does not disturb id-keyed lookup of other
rows, and rewrites the looked-up row itself. -/
theorem find?_id_update (l : List Order) (o : Order) (g : Order → Order)
    (hg : ∀ x, (g x).id = x.id)
    (hmem : o ∈ l) (hnd : (l.map Order.id).Nodup) :
    (l.map (fun x => if x.id == o.id then g x else x)).find?
        (fun x => x.id == o.id) = some (g o) := by
  have hf : ∀ x : Order,
      ((fun x : Order => x.id == o.id) (if x.id == o.id then g x else x)) =
        ((fun x : Order => x.id == o.id) x) := by
    intro x
    by_cases h : (x.id == o.id) = true <;> simp [h, hg]
  rw [find?_map_invariant _ _ _ hf,
    find?_key_of_mem_nodup Order.id l o hmem hnd]
  simp

/-- The B2B analogue of `find?_id_update`. -/
theorem find?_b2bid_update (l : List B2BOrder) (o : B2BOrder)
    (g : B2BOrder → B2BOrder) (hg : ∀ x, (g x).id = x.id)
    (hmem : o ∈ l) (hnd : (l.map B2BOrder.id).Nodup) :
    (l.map (fun x => if x.id == o.id then g x else x)).find?
        (fun x => x.id == o.id) = some (g o) := by
  have hf : ∀ x : B2BOrder,
      ((fun x : B2BOrder => x.id == o.id) (if x.id == o.id then g x else x)) =
        ((fun x : B2BOrder => x.id == o.id) x) := by
    intro x
    by_cases h : (x.id == o.id) = true <;> simp [h, hg]
  rw [find?_map_invariant _ _ _ hf,
    find?_key_of_mem_nodup B2BOrder.id l o hmem hnd]
  simp

/-- C5, counterexample.  A verified `CANCELLED` callback for a retail
order does not move the order to a `cancelled` state with the gateway's
status code as reason: it marks it `failed` with the fixed reason string
`CANCELLED`, ignoring the supplied `statusCode` (here `"999"`). -/
theorem c5_status_mapping_counterexample :
    (maibRoutes.postCallback ⟨"sig", true, some "TX1", some "Cancelled",
        none, some "999", none⟩ 0 cbDB).2 = .okAck ∧
    (getOrderById? (maibRoutes.postCallback ⟨"sig", true, some "TX1",
        some "Cancelled", none, some "999", none⟩ 0 cbDB).1 1).map
      Order.status = some "failed" ∧
    (getOrderById? (maibRoutes.postCallback ⟨"sig", true, some "TX1",
        some "Cancelled", none, some "999", none⟩ 0 cbDB).1 1).map
      Order.failure_reason = some (some "CANCELLED") := by
  refine ⟨?_, ?_, ?_⟩ <;> decide

/-- C5, amended.  For every authenticated callback the handler maps the
gateway status case-insensitively into the three buckets; any status
outside them mutates nothing and is acknowledged.  On a failure status a
retail order is marked `failed` with reason `statusCode || status`; on a
cancellation status a retail order is also marked `failed` (not
`cancelled`) with the fixed reason `"CANCELLED"`.  A B2B order moves to
`payment_failed` with history note `"Payment failed: " ++ (statusCode ||
status)` on failure, and to `cancelled` with the fixed note
`"Payment cancelled by user"` on cancellation.  No confirmation email is
sent on any of these paths. -/
theorem c5_status_mapping_amended (db : DB) (cb : MaibCallback) (now : Int)
    (tx : String)
    (hs : cb.signature ≠ "") (hv : cb.signatureValid = true)
    (hpay : cb.payId = some tx) (hdb : db.dbError = false) :
    (∀ o : Order, orderService.getOrderByTransactionId db tx = some o →
      (db.orders.map Order.id).Nodup →
      ((successStatuses.contains (toUpperCase (cb.status.getD "")) = false →
        failedStatuses.contains (toUpperCase (cb.status.getD "")) = false →
        cancelledStatuses.contains (toUpperCase (cb.status.getD "")) = false →
        maibRoutes.postCallback cb now db = (db, .okAck)) ∧
       (failedStatuses.contains (toUpperCase (cb.status.getD "")) = true →
        successStatuses.contains (toUpperCase (cb.status.getD "")) = false →
        (maibRoutes.postCallback cb now db).2 = .okAck ∧
        getOrderById? (maibRoutes.postCallback cb now db).1 o.id =
          some { o with
                   status := "failed", payment_status := "failed",
                   failure_reason := some (jsOrS cb.statusCode cb.status) } ∧
        (maibRoutes.postCallback cb now db).1.confirmationEmails =
          db.confirmationEmails) ∧
       (cancelledStatuses.contains (toUpperCase (cb.status.getD "")) = true →
        successStatuses.contains (toUpperCase (cb.status.getD "")) = false →
        failedStatuses.contains (toUpperCase (cb.status.getD "")) = false →
        (maibRoutes.postCallback cb now db).2 = .okAck ∧
        getOrderById? (maibRoutes.postCallback cb now db).1 o.id =
          some { o with
                   status := "failed", payment_status := "failed",
                   failure_reason := some "CANCELLED" } ∧
        (maibRoutes.postCallback cb now db).1.confirmationEmails =
          db.confirmationEmails))) ∧
    (∀ bo : B2BOrder, orderService.getOrderByTransactionId db tx = none →
      db.b2b_orders.find? (fun x => x.maib_transaction_id == some tx) = some bo →
      (db.b2b_orders.map B2BOrder.id).Nodup →
      ((successStatuses.contains (toUpperCase (cb.status.getD "")) = false →
        failedStatuses.contains (toUpperCase (cb.status.getD "")) = false →
        cancelledStatuses.contains (toUpperCase (cb.status.getD "")) = false →
        maibRoutes.postCallback cb now db = (db, .okAck)) ∧
       (failedStatuses.contains (toUpperCase (cb.status.getD "")) = true →
        successStatuses.contains (toUpperCase (cb.status.getD "")) = false →
        (maibRoutes.postCallback cb now db).2 = .okAck ∧
        getB2BOrderById? (maibRoutes.postCallback cb now db).1 bo.id =
          some { bo with status := "payment_failed" } ∧
        (maibRoutes.postCallback cb now db).1.b2b_order_history =
          db.b2b_order_history ++ [⟨bo.id, "payment_failed", none,
            some ("Payment failed: " ++ jsOrS cb.statusCode cb.status)⟩] ∧
        (maibRoutes.postCallback cb now db).1.confirmationEmails =
          db.confirmationEmails) ∧
       (cancelledStatuses.contains (toUpperCase (cb.status.getD "")) = true →
        successStatuses.contains (toUpperCase (cb.status.getD "")) = false →
        failedStatuses.contains (toUpperCase (cb.status.getD "")) = false →
        (maibRoutes.postCallback cb now db).2 = .okAck ∧
        getB2BOrderById? (maibRoutes.postCallback cb now db).1 bo.id =
          some { bo with status := "cancelled" } ∧
        (maibRoutes.postCallback cb now db).1.b2b_order_history =
          db.b2b_order_history ++ [⟨bo.id, "cancelled", none,
            some "Payment cancelled by user"⟩] ∧
        (maibRoutes.postCallback cb now db).1.confirmationEmails =
          db.confirmationEmails))) := by
  constructor
  · intro o hfound hnd
    have hfind : db.orders.find?
        (fun x => x.maib_transaction_id == some tx) = some o := by
      unfold orderService.getOrderByTransactionId at hfound
      rw [hdb] at hfound
      simpa using hfound
    have hmem := List.mem_of_find?_eq_some hfind
    have hred := postCallback_retail_eq db cb now tx o hs hv hpay hfound
    refine ⟨?_, ?_, ?_⟩
    · intro h1 h2 h3
      rw [hred, if_neg (by rw [h1]; exact Bool.false_ne_true), if_neg (by rw [h2]; exact Bool.false_ne_true),
        if_neg (by rw [h3]; exact Bool.false_ne_true)]
    · intro h2 h1
      have hmf : orderService.markAsFailed o.id
          (jsOrS cb.statusCode cb.status) db =
          .ok { db with orders := db.orders.map (fun x =>
            if x.id == o.id then
              { x with
                  status := "failed", payment_status := "failed",
                  failure_reason := some (jsOrS cb.statusCode cb.status) }
            else x) } := by
        simp [orderService.markAsFailed, hdb]
      rw [hred, if_neg (by rw [h1]; exact Bool.false_ne_true), if_pos h2, hmf]
      refine ⟨rfl, ?_, rfl⟩
      unfold getOrderById?
      exact find?_id_update db.orders o _ (fun x => rfl) hmem hnd
    · intro h3 h1 h2
      have hmf : orderService.markAsFailed o.id "CANCELLED" db =
          .ok { db with orders := db.orders.map (fun x =>
            if x.id == o.id then
              { x with
                  status := "failed", payment_status := "failed",
                  failure_reason := some "CANCELLED" }
            else x) } := by
        simp [orderService.markAsFailed, hdb]
      rw [hred, if_neg (by rw [h1]; exact Bool.false_ne_true), if_neg (by rw [h2]; exact Bool.false_ne_true), if_pos h3, hmf]
      refine ⟨rfl, ?_, rfl⟩
      unfold getOrderById?
      exact find?_id_update db.orders o _ (fun x => rfl) hmem hnd
  · intro bo hnone hfoundB hnd
    have hmem := List.mem_of_find?_eq_some hfoundB
    have hred := postCallback_b2b_eq db cb now tx bo hs hv hpay hdb hnone hfoundB
    refine ⟨?_, ?_, ?_⟩
    · intro h1 h2 h3
      rw [hred, if_neg (by rw [h1]; exact Bool.false_ne_true), if_neg (by rw [h2]; exact Bool.false_ne_true),
        if_neg (by rw [h3]; exact Bool.false_ne_true)]
    · intro h2 h1
      have hus : b2bOrderService.updateStatus bo.id "payment_failed" none
          (some ("Payment failed: " ++ jsOrS cb.statusCode cb.status)) db =
          .ok { db with
            b2b_orders := db.b2b_orders.map (fun x =>
              if x.id == bo.id then { x with status := "payment_failed" }
              else x),
            b2b_order_history := db.b2b_order_history ++ [⟨bo.id,
              "payment_failed", none,
              some ("Payment failed: " ++ jsOrS cb.statusCode cb.status)⟩] } := by
        simp [b2bOrderService.updateStatus, b2bOrderService.addHistoryEntry, hdb]
      rw [hred, if_neg (by rw [h1]; exact Bool.false_ne_true), if_pos h2, hus]
      refine ⟨rfl, ?_, rfl, rfl⟩
      unfold getB2BOrderById?
      exact find?_b2bid_update db.b2b_orders bo _ (fun x => rfl) hmem hnd
    · intro h3 h1 h2
      have hus : b2bOrderService.updateStatus bo.id "cancelled" none
          (some "Payment cancelled by user") db =
          .ok { db with
            b2b_orders := db.b2b_orders.map (fun x =>
              if x.id == bo.id then { x with status := "cancelled" }
              else x),
            b2b_order_history := db.b2b_order_history ++ [⟨bo.id,
              "cancelled", none, some "Payment cancelled by user"⟩] } := by
        simp [b2bOrderService.updateStatus, b2bOrderService.addHistoryEntry, hdb]
      rw [hred, if_neg (by rw [h1]; exact Bool.false_ne_true), if_neg (by rw [h2]; exact Bool.false_ne_true), if_pos h3, hus]
      refine ⟨rfl, ?_, rfl, rfl⟩
      unfold getB2BOrderById?
      exact find?_b2bid_update db.b2b_orders bo _ (fun x => rfl) hmem hnd

/-- C5 witness: a verified `declined` callback with `statusCode "55"` for
the concrete pending retail order marks it failed with reason `"55"` and
sends no email. -/
theorem c5_status_mapping_amended_witness :
    (maibRoutes.postCallback ⟨"sig", true, some "TX1", some "declined",
        none, some "55", none⟩ 0 cbDB).2 = .okAck ∧
    getOrderById? (maibRoutes.postCallback ⟨"sig", true, some "TX1",
        some "declined", none, some "55", none⟩ 0 cbDB).1 cbOrder.id =
      some { cbOrder with
               status := "failed", payment_status := "failed",
               failure_reason := some (jsOrS (some "55") (some "declined")) } ∧
    (maibRoutes.postCallback ⟨"sig", true, some "TX1", some "declined",
        none, some "55", none⟩ 0 cbDB).1.confirmationEmails =
      cbDB.confirmationEmails :=
  ((c5_status_mapping_amended cbDB ⟨"sig", true, some "TX1", some "declined",
      none, some "55", none⟩ 0 "TX1" (by decide) rfl rfl rfl).1 cbOrder rfl
    (by decide)).2.1 (by decide) (by decide)

/-! ## C2: re-applying a successful callback -/

/-- A filter over a list with a known satisfying member is non-empty. -/
theorem filter_isEmpty_false {α : Type} (l : List α) (p : α → Bool) (x : α)
    (hx : x ∈ l) (hp : p x = true) : (l.filter p).isEmpty = false := by
  have hmemf : x ∈ l.filter p := List.mem_filter.mpr ⟨hx, hp⟩
  cases hf : l.filter p with
  | nil =>
    rw [hf] at hmemf
    cases hmemf
  | cons a as => rfl

/-- Two maps agreeing on every member of the list map it equally. -/
theorem map_congr_mem {α β : Type} (l : List α) (f g : α → β)
    (h : ∀ a, a ∈ l → f a = g a) : l.map f = l.map g := by
  induction l with
  | nil => rfl
  | cons a as ih =>
    rw [List.map_cons, List.map_cons, h a (List.mem_cons_self a as),
      ih (fun b hb => h b (List.mem_cons_of_mem a hb))]

/-- Mapping a pointwise-idempotent update twice is the same as once. -/
theorem map_pointwise_idem {α : Type} (f : α → α) (l : List α)
    (h : ∀ a, f (f a) = f a) : (l.map f).map f = l.map f := by
  induction l with
  | nil => rfl
  | cons a as ih =>
    simp only [List.map_cons]
    rw [h, ih]

set_option maxHeartbeats 1000000 in
/-- Full-state reduction of one authenticated success callback for a
retail order: the order is marked paid and `processSuccessfulOrder` runs
to completion, generating one artifact batch, storing the pdf urls and
sending one confirmation email. -/
theorem retail_success_once (db : DB) (cb : MaibCallback) (now : Int)
    (tx : String) (o : Order) (x : OrderItem)
    (hs : cb.signature ≠ "") (hv : cb.signatureValid = true)
    (hpay : cb.payId = some tx) (hdb : db.dbError = false)
    (hfound : orderService.getOrderByTransactionId db tx = some o)
    (hnd : (db.orders.map Order.id).Nodup)
    (hsucc : successStatuses.contains (toUpperCase (cb.status.getD "")) = true)
    (hx : x ∈ db.order_items) (hxo : (x.order_id == o.id) = true) :
    maibRoutes.postCallback cb now db =
      ({ db with
          orders := db.orders.map (fun y =>
            if y.id == o.id then
              { y with status := "paid", payment_status := "ok",
                       paid_at := some now }
            else y),
          order_items := db.order_items.map (fun it =>
            if it.order_id == o.id then
              { it with
                  pdf_url := some (orderService.pdfUrlFor o.order_number it.ticket_code) }
            else it),
          artifactBatches := db.artifactBatches ++ [o.id],
          confirmationEmails := db.confirmationEmails ++ [o.id] }, .okAck) := by
  have hfind : db.orders.find?
      (fun y => y.maib_transaction_id == some tx) = some o := by
    unfold orderService.getOrderByTransactionId at hfound
    rw [hdb] at hfound
    simpa using hfound
  have hmem := List.mem_of_find?_eq_some hfind
  have hred := postCallback_retail_eq db cb now tx o hs hv hpay hfound
  rw [hred, if_pos hsucc]
  have hmp : orderService.markAsPaid o.id now db =
      .ok { db with orders := db.orders.map (fun y =>
        if y.id == o.id then
          { y with status := "paid", payment_status := "ok",
                   paid_at := some now }
        else y) } := by
    simp [orderService.markAsPaid, hdb]
  have hfind1 : (db.orders.map (fun y =>
      if y.id == o.id then
        { y with status := "paid", payment_status := "ok",
                 paid_at := some now }
      else y)).find? (fun y => y.id == o.id) =
      some { o with status := "paid", payment_status := "ok",
                    paid_at := some now } :=
    find?_id_update db.orders o _ (fun y => rfl) hmem hnd
  have hflt : ((db.order_items.filter
      (fun it => it.order_id == o.id)).isEmpty = true) = False := by
    rw [filter_isEmpty_false db.order_items _ x hx hxo]
    simp
  unfold maibRoutes.retailSuccess
  rw [hmp]
  dsimp only
  unfold orderService.processSuccessfulOrder
  dsimp only
  rw [hdb]
  rw [if_neg (show ¬ (false = true) by simp)]
  rw [hfind1]
  dsimp only
  rw [if_neg (show ¬ (false = true) by simp)]
  rw [if_neg (of_eq_false hflt)]

set_option maxHeartbeats 2000000 in
/-- C2, amended.  Re-applying the same verified success callback leaves
the order paid exactly once and is acknowledged: after the second
application the order row is the same paid/`ok` row with only `paid_at`
restamped to the second call's time (the source restamps
`new Date().toISOString()` on every `markAsPaid`), the order list differs
from the first application's only by that restamp, the item rows and the
promo state are literally unchanged.  But the handler has no already-paid
guard: each application re-runs `processSuccessfulOrder`, so the second
one generates the ticket artifacts again and sends a second confirmation
email — the two side-effect logs each gain a second entry. -/
theorem c2_second_callback_amended (db : DB) (cb : MaibCallback)
    (now now2 : Int) (tx : String) (o : Order) (x : OrderItem)
    (hs : cb.signature ≠ "") (hv : cb.signatureValid = true)
    (hpay : cb.payId = some tx) (hdb : db.dbError = false)
    (hfound : orderService.getOrderByTransactionId db tx = some o)
    (hnd : (db.orders.map Order.id).Nodup)
    (hsucc : successStatuses.contains (toUpperCase (cb.status.getD "")) = true)
    (hx : x ∈ db.order_items) (hxo : (x.order_id == o.id) = true) :
    (maibRoutes.postCallback cb now2 (maibRoutes.postCallback cb now db).1).2 =
      .okAck ∧
    getOrderById? (maibRoutes.postCallback cb now db).1 o.id =
      some { o with status := "paid", payment_status := "ok",
                    paid_at := some now } ∧
    getOrderById? (maibRoutes.postCallback cb now2
        (maibRoutes.postCallback cb now db).1).1 o.id =
      some { o with status := "paid", payment_status := "ok",
                    paid_at := some now2 } ∧
    (maibRoutes.postCallback cb now2
        (maibRoutes.postCallback cb now db).1).1.orders =
      (maibRoutes.postCallback cb now db).1.orders.map (fun y =>
        if y.id == o.id then { y with paid_at := some now2 } else y) ∧
    (maibRoutes.postCallback cb now2
        (maibRoutes.postCallback cb now db).1).1.order_items =
      (maibRoutes.postCallback cb now db).1.order_items ∧
    (maibRoutes.postCallback cb now2
        (maibRoutes.postCallback cb now db).1).1.promo_codes =
      db.promo_codes ∧
    (maibRoutes.postCallback cb now db).1.confirmationEmails =
      db.confirmationEmails ++ [o.id] ∧
    (maibRoutes.postCallback cb now2
        (maibRoutes.postCallback cb now db).1).1.confirmationEmails =
      db.confirmationEmails ++ [o.id] ++ [o.id] ∧
    (maibRoutes.postCallback cb now db).1.artifactBatches =
      db.artifactBatches ++ [o.id] ∧
    (maibRoutes.postCallback cb now2
        (maibRoutes.postCallback cb now db).1).1.artifactBatches =
      db.artifactBatches ++ [o.id] ++ [o.id] := by
  have hfind : db.orders.find?
      (fun y => y.maib_transaction_id == some tx) = some o := by
    unfold orderService.getOrderByTransactionId at hfound
    rw [hdb] at hfound
    simpa using hfound
  have hmem := List.mem_of_find?_eq_some hfind
  have h1 := retail_success_once db cb now tx o x hs hv hpay hdb hfound hnd
    hsucc hx hxo
  rw [h1]
  dsimp only
  -- facts about the state after the first application
  have hupd1 : (fun y : Order =>
      if y.id == o.id then
        { y with status := "paid", payment_status := "ok",
                 paid_at := some now }
      else y) o =
      { o with status := "paid", payment_status := "ok",
               paid_at := some now } := by
    simp
  have hfound1 : orderService.getOrderByTransactionId
      { db with
        orders := db.orders.map (fun y =>
          if y.id == o.id then
            { y with status := "paid", payment_status := "ok",
                     paid_at := some now }
          else y),
        order_items := db.order_items.map (fun it =>
          if it.order_id == o.id then
            { it with
                pdf_url := some (orderService.pdfUrlFor o.order_number it.ticket_code) }
          else it),
        artifactBatches := db.artifactBatches ++ [o.id],
        confirmationEmails := db.confirmationEmails ++ [o.id] } tx =
      some { o with status := "paid", payment_status := "ok",
                    paid_at := some now } := by
    unfold orderService.getOrderByTransactionId
    dsimp only
    rw [hdb, if_neg (show ¬ (false = true) by simp)]
    rw [find?_map_invariant _ _ _ (fun y => by
      by_cases h : (y.id == o.id) = true <;> simp [h])]
    rw [hfind]
    simp [hupd1]
  have hnd1 : ((db.orders.map (fun y : Order =>
      if y.id == o.id then
        { y with status := "paid", payment_status := "ok",
                 paid_at := some now }
      else y)).map Order.id).Nodup := by
    rw [List.map_map]
    have hfun : (Order.id ∘ (fun y : Order =>
        if y.id == o.id then
          { y with status := "paid", payment_status := "ok",
                   paid_at := some now }
        else y)) = Order.id := by
      funext y
      by_cases h : (y.id == o.id) = true <;> simp [h, Function.comp]
    rw [hfun]
    exact hnd
  have hmem1 : ({ o with
      status := "paid", payment_status := "ok",
      paid_at := some now } : Order) ∈
      db.orders.map (fun y : Order =>
        if y.id == o.id then
          { y with status := "paid", payment_status := "ok",
                   paid_at := some now }
        else y) := by
    rw [← hupd1]
    exact List.mem_map_of_mem _ hmem
  have hx1 : ({ x with
      pdf_url := some (orderService.pdfUrlFor o.order_number x.ticket_code) } : OrderItem) ∈
      db.order_items.map (fun it : OrderItem =>
        if it.order_id == o.id then
          { it with
              pdf_url := some (orderService.pdfUrlFor o.order_number it.ticket_code) }
        else it) := by
    have hfx : (fun it : OrderItem =>
        if it.order_id == o.id then
          { it with
              pdf_url := some (orderService.pdfUrlFor o.order_number it.ticket_code) }
        else it) x =
        { x with
            pdf_url := some (orderService.pdfUrlFor o.order_number x.ticket_code) } := by
      simp [hxo]
    rw [← hfx]
    exact List.mem_map_of_mem _ hx
  have h2 := retail_success_once _ cb now2 tx
    { o with status := "paid", payment_status := "ok", paid_at := some now }
    { x with pdf_url := some (orderService.pdfUrlFor o.order_number x.ticket_code) }
    hs hv hpay (by exact hdb) hfound1 hnd1 hsucc hx1 (by simpa using hxo)
  rw [h2]
  dsimp only
  have e1 := find?_id_update db.orders o (fun y =>
    { y with status := "paid", payment_status := "ok",
             paid_at := some now }) (fun y => rfl) hmem hnd
  have e2 := find?_id_update
    (db.orders.map (fun y : Order =>
      if y.id == o.id then
        { y with status := "paid", payment_status := "ok",
                 paid_at := some now }
      else y))
    { o with status := "paid", payment_status := "ok", paid_at := some now }
    (fun y => { y with status := "paid", payment_status := "ok",
                       paid_at := some now2 })
    (fun y => rfl) hmem1 hnd1
  dsimp only at e2
  refine ⟨rfl, ?_, ?_, ?_, ?_, rfl, rfl, rfl, rfl, rfl⟩
  · unfold getOrderById?
    dsimp only
    rw [e1]
  · unfold getOrderById?
    dsimp only
    rw [e2]
  · -- the second application only restamps `paid_at` on the paid row
    refine map_congr_mem _ _ _ (fun y hy => ?_)
    rw [List.mem_map] at hy
    obtain ⟨z, hz, rfl⟩ := hy
    by_cases hzid : (z.id == o.id) = true
    · have hzo : z = o := List.inj_on_of_nodup_map hnd hz hmem (by
        simpa using hzid)
      subst hzo
      simp
    · simp [hzid]
  · -- re-storing the same pdf urls leaves the item rows unchanged
    refine map_pointwise_idem _ _ (fun it => ?_)
    by_cases hit : (it.order_id == o.id) = true
    · simp [hit]
    · simp [hit]

/-- C2, counterexample.  Applying the same verified success callback twice
to the concrete store `cbDB` leaves the order paid, but the second
application sends a second confirmation email and generates a second
ticket-artifact batch — the handler has no idempotence guard. -/
theorem c2_webhook_idempotence_counterexample :
    (maibRoutes.postCallback ⟨"sig", true, some "TX1", some "OK", none,
        none, none⟩ 0 cbDB).1.confirmationEmails = [1] ∧
    (maibRoutes.postCallback ⟨"sig", true, some "TX1", some "OK", none,
        none, none⟩ 0
      (maibRoutes.postCallback ⟨"sig", true, some "TX1", some "OK", none,
        none, none⟩ 0 cbDB).1).1.confirmationEmails = [1, 1] ∧
    (maibRoutes.postCallback ⟨"sig", true, some "TX1", some "OK", none,
        none, none⟩ 0
      (maibRoutes.postCallback ⟨"sig", true, some "TX1", some "OK", none,
        none, none⟩ 0 cbDB).1).1.artifactBatches = [1, 1] ∧
    (getOrderById? (maibRoutes.postCallback ⟨"sig", true, some "TX1",
        some "OK", none, none, none⟩ 0
      (maibRoutes.postCallback ⟨"sig", true, some "TX1", some "OK", none,
        none, none⟩ 0 cbDB).1).1 1).map Order.status = some "paid" ∧
    (maibRoutes.postCallback ⟨"sig", true, some "TX1", some "OK", none,
        none, none⟩ 0
      (maibRoutes.postCallback ⟨"sig", true, some "TX1", some "OK", none,
        none, none⟩ 0 cbDB).1).2 = .okAck := by
  refine ⟨?_, ?_, ?_, ?_, ?_⟩ <;> decide

/-- Concrete instantiation of the amended C2 statement on `cbDB`: the
second callback restamps `paid_at` from 5 to 9, changes no item row and
no promo row, and doubles the email and artifact logs. -/
theorem c2_second_callback_amended_witness :
    (maibRoutes.postCallback ⟨"sig", true, some "TX1", some "OK", none,
        none, none⟩ 9 (maibRoutes.postCallback ⟨"sig", true, some "TX1",
        some "OK", none, none, none⟩ 5 cbDB).1).2 = .okAck ∧
    getOrderById? (maibRoutes.postCallback ⟨"sig", true, some "TX1",
        some "OK", none, none, none⟩ 5 cbDB).1 cbOrder.id =
      some { cbOrder with status := "paid", payment_status := "ok",
                          paid_at := some 5 } ∧
    getOrderById? (maibRoutes.postCallback ⟨"sig", true, some "TX1",
        some "OK", none, none, none⟩ 9 (maibRoutes.postCallback ⟨"sig",
        true, some "TX1", some "OK", none, none, none⟩ 5 cbDB).1).1
      cbOrder.id =
      some { cbOrder with status := "paid", payment_status := "ok",
                          paid_at := some 9 } ∧
    (maibRoutes.postCallback ⟨"sig", true, some "TX1", some "OK", none,
        none, none⟩ 9 (maibRoutes.postCallback ⟨"sig", true, some "TX1",
        some "OK", none, none, none⟩ 5 cbDB).1).1.orders =
      (maibRoutes.postCallback ⟨"sig", true, some "TX1", some "OK", none,
        none, none⟩ 5 cbDB).1.orders.map (fun y =>
          if y.id == cbOrder.id then { y with paid_at := some 9 } else y) ∧
    (maibRoutes.postCallback ⟨"sig", true, some "TX1", some "OK", none,
        none, none⟩ 9 (maibRoutes.postCallback ⟨"sig", true, some "TX1",
        some "OK", none, none, none⟩ 5 cbDB).1).1.order_items =
      (maibRoutes.postCallback ⟨"sig", true, some "TX1", some "OK", none,
        none, none⟩ 5 cbDB).1.order_items ∧
    (maibRoutes.postCallback ⟨"sig", true, some "TX1", some "OK", none,
        none, none⟩ 9 (maibRoutes.postCallback ⟨"sig", true, some "TX1",
        some "OK", none, none, none⟩ 5 cbDB).1).1.promo_codes =
      cbDB.promo_codes ∧
    (maibRoutes.postCallback ⟨"sig", true, some "TX1", some "OK", none,
        none, none⟩ 5 cbDB).1.confirmationEmails =
      cbDB.confirmationEmails ++ [cbOrder.id] ∧
    (maibRoutes.postCallback ⟨"sig", true, some "TX1", some "OK", none,
        none, none⟩ 9 (maibRoutes.postCallback ⟨"sig", true, some "TX1",
        some "OK", none, none, none⟩ 5 cbDB).1).1.confirmationEmails =
      cbDB.confirmationEmails ++ [cbOrder.id] ++ [cbOrder.id] ∧
    (maibRoutes.postCallback ⟨"sig", true, some "TX1", some "OK", none,
        none, none⟩ 5 cbDB).1.artifactBatches =
      cbDB.artifactBatches ++ [cbOrder.id] ∧
    (maibRoutes.postCallback ⟨"sig", true, some "TX1", some "OK", none,
        none, none⟩ 9 (maibRoutes.postCallback ⟨"sig", true, some "TX1",
        some "OK", none, none, none⟩ 5 cbDB).1).1.artifactBatches =
      cbDB.artifactBatches ++ [cbOrder.id] ++ [cbOrder.id] :=
  c2_second_callback_amended cbDB
    ⟨"sig", true, some "TX1", some "OK", none, none, none⟩ 5 9 "TX1"
    cbOrder cbItem (by decide) rfl rfl rfl rfl (by decide) (by decide)
    (by decide) (by decide)

/-! ## C3: promo usage increment in `createOrder` -/

/-- `validatePromoCode` reads only the promo and order tables and the
error flag, so a different `nextId` does not change its result. -/
theorem validatePromoCode_nextId (db : DB) (n : Nat) (now : Int)
    (opts : ValidatePromoOptions) :
    promoService.validatePromoCode { db with nextId := n } now opts =
      promoService.validatePromoCode db now opts := rfl

/-- C3, counterexample.  Creating an order with the expired promo
`SUMMER` (validation fails with `EXPIRED`) produces an order with
`discount_amount = 0`, yet `used_count` is still incremented to 1:
`createOrder` calls `incrementUsage` whenever a promo code was supplied,
not only on successful validation. -/
theorem c3_promo_increment_counterexample :
    (promoService.validatePromoCode c3db 1000
      ⟨"SUMMER", 100, some "a@b.md", some ["t1"]⟩).errorCode =
      some "EXPIRED" ∧
    (c3result.toOption.map (fun r => r.2.discount_amount)) = some 0 ∧
    (c3result.toOption.map (fun r =>
      r.1.promo_codes.map PromoCode.used_count)) = some [1] := by
  have hup : toUpperCase "SUMMER" = "SUMMER" := by decide
  have hne : ("SUMMER" = "") = False := by decide
  refine ⟨?_, ?_, ?_⟩ <;>
    norm_num [c3result, orderService.createOrder,
      orderService.cancelPendingOrdersByEmail, orderService.buildOrderItems,
      orderService.resolveUnitPrice, orderService.explodeCartLine,
      generateTicketCode, qrPayload, promoService.validatePromoCode,
      promoService.promoLookup, promoService.invalidResult,
      promoService.incrementUsage, truthyN, truthyQ, jsRound, List.find?,
      Option.elim, c3db, c3params, c3ticket, c3promo, hup, hne,
      Except.toOption]

set_option maxHeartbeats 1000000 in
/-- C3, amended.  Whenever `createOrder` succeeds with a (non-empty)
promo code that exists in the store, the promo's `used_count` is
incremented — regardless of whether validation succeeded; when validation
failed (e.g. the promo is expired), the created order still carries
`discount_amount = 0`. -/
theorem c3_promo_increment_amended (params : CreateOrderRequest) (now : Int)
    (db db' : DB) (ord : Order) (c : String) (p : PromoCode)
    (hpc : params.promoCode = some c) (hc : ¬ (c = ""))
    (hdb : db.dbError = false)
    (hok : orderService.createOrder params now db = .ok (db', ord))
    (hfindp : db.promo_codes.find? (fun q => q.code == toUpperCase c) = some p) :
    (db'.promo_codes.find? (fun q => q.code == toUpperCase c)).map
      PromoCode.used_count = some (p.used_count + 1) ∧
    ((promoService.validatePromoCode
        (orderService.cancelPendingOrdersByEmail params.customer.email db).1
        now
        ⟨c, ord.total_amount, some params.customer.email,
          some ((params.items.map (fun i => i.ticketId)).dedup)⟩).valid =
          false →
      ord.discount_amount = 0) := by
  have hdb1promos :
      (orderService.cancelPendingOrdersByEmail params.customer.email db).1.promo_codes =
        db.promo_codes := by
    simp [orderService.cancelPendingOrdersByEmail, hdb]
  have hdb1err :
      (orderService.cancelPendingOrdersByEmail params.customer.email db).1.dbError =
        false := by
    simp [orderService.cancelPendingOrdersByEmail, hdb]
  unfold orderService.createOrder at hok
  dsimp only at hok
  cases hbuild : orderService.buildOrderItems
      (orderService.cancelPendingOrdersByEmail params.customer.email db).1 now
      params.items
      (orderService.cancelPendingOrdersByEmail params.customer.email db).1.nextId with
  | error e =>
    rw [hbuild] at hok
    cases hok
  | ok triple =>
    obtain ⟨totalAmount, rest⟩ := triple
    obtain ⟨pendingItems, ctr⟩ := rest
    rw [hbuild] at hok
    dsimp only at hok
    rw [hpc] at hok
    dsimp only at hok
    have hnotdb : ¬ ((orderService.cancelPendingOrdersByEmail
        params.customer.email db).1.dbError = true) := by
      rw [hdb1err]
      simp
    rw [if_neg hnotdb, if_neg hnotdb] at hok
    have hcf : ((c = "") = False) := by simp [hc]
    simp only [hcf, if_false] at hok
    rw [Except.ok.injEq, Prod.mk.injEq] at hok
    obtain ⟨hdb', hord⟩ := hok
    constructor
    · rw [← hdb']
      unfold promoService.incrementUsage
      dsimp only
      rw [if_neg hnotdb]
      rw [hdb1promos, hfindp]
      dsimp only
      rw [if_neg hnotdb]
      dsimp only
      rw [find?_map_invariant _ _ _ (fun q => by
        by_cases h : (q.code == toUpperCase c) = true <;> simp [h])]
      rw [hfindp]
      have hpe : p.code = toUpperCase c := by
        simpa using List.find?_some hfindp
      simp [hpe]
    · intro hval
      have htot : ord.total_amount = totalAmount := by
        rw [← hord]
      rw [htot] at hval
      rw [← hord]
      dsimp only
      rw [validatePromoCode_nextId]
      rw [hval]
      simp

/-- Concrete instantiation of the amended C3 statement on `c3db`. -/
theorem c3_promo_increment_amended_witness :
    c3params.promoCode = some "SUMMER" ∧ ¬ (("SUMMER" : String) = "") ∧
    c3db.dbError = false ∧
    orderService.createOrder c3params 1000 c3db = .ok (c3db', c3ord) ∧
    c3db.promo_codes.find? (fun q => q.code == toUpperCase "SUMMER") =
      some c3promo ∧
    ((c3db'.promo_codes.find? (fun q => q.code == toUpperCase "SUMMER")).map
        PromoCode.used_count = some (c3promo.used_count + 1) ∧
      ((promoService.validatePromoCode
          (orderService.cancelPendingOrdersByEmail c3params.customer.email
            c3db).1 1000
          ⟨"SUMMER", c3ord.total_amount, some c3params.customer.email,
            some ((c3params.items.map (fun i => i.ticketId)).dedup)⟩).valid =
            false →
        c3ord.discount_amount = 0)) := by
  have hup : toUpperCase "SUMMER" = "SUMMER" := by decide
  have hne : ("SUMMER" = "") = False := by decide
  have hok : orderService.createOrder c3params 1000 c3db = .ok (c3db', c3ord) := by
    simp [orderService.createOrder,
      orderService.cancelPendingOrdersByEmail, orderService.buildOrderItems,
      orderService.resolveUnitPrice, orderService.explodeCartLine,
      generateTicketCode, qrPayload, promoService.validatePromoCode,
      promoService.promoLookup, promoService.invalidResult,
      promoService.incrementUsage, truthyN, truthyQ, jsRound, List.find?,
      Option.elim, c3db, c3params, c3ticket, c3promo, hup, hne,
      c3db', c3ord, c3item]
    decide
  exact ⟨rfl, by decide, rfl, hok, by decide,
    c3_promo_increment_amended c3params 1000 c3db c3db' c3ord "SUMMER" c3promo
      rfl (by decide) rfl hok (by decide)⟩

/-! ## C1: the payment-status invariant under lifecycle operations -/

/-- `List.all` survives a pointwise update that preserves the predicate on
the rows it is applied to. -/
theorem all_map_invariant {α : Type} (p : α → Bool) (f : α → α) (l : List α)
    (h : ∀ a, a ∈ l → p a = true → p (f a) = true) (hl : l.all p = true) :
    (l.map f).all p = true := by
  rw [List.all_eq_true] at hl ⊢
  intro x hx
  rw [List.mem_map] at hx
  obtain ⟨a, ha, rfl⟩ := hx
  exact h a ha (hl a ha)

/-- A pointwise update that fixes the key column leaves the key column of
the table unchanged. -/
theorem map_key_update {α β : Type} (key : α → β) (g : α → α) (l : List α)
    (hg : ∀ a, key (g a) = key a) : (l.map g).map key = l.map key := by
  induction l with
  | nil => rfl
  | cons a as ih =>
    simp only [List.map_cons, hg, ih]

/-- One safe lifecycle operation preserves both the payment-status
invariant and the `b2b_orders` primary key. -/
theorem c1step (db : DB) (t : Int) (op : LifecycleOp) (hs : safeOp op = true)
    (h : paymentInvariant db = true) (hn : b2bIdsNodup db) :
    paymentInvariant (applyOp db (t, op)) = true ∧
      b2bIdsNodup (applyOp db (t, op)) := by
  unfold paymentInvariant at h
  rw [Bool.and_eq_true] at h
  obtain ⟨hord, hb2b⟩ := h
  have hkeep : paymentInvariant db = true := by
    unfold paymentInvariant
    rw [Bool.and_eq_true]
    exact ⟨hord, hb2b⟩
  cases op with
  | retailMarkAsPaid oid =>
    simp only [applyOp]
    unfold orderService.markAsPaid
    by_cases hd : db.dbError = true
    · rw [if_pos hd]
      exact ⟨hkeep, hn⟩
    · rw [if_neg hd]
      unfold recover
      dsimp only
      constructor
      · unfold paymentInvariant
        dsimp only
        rw [Bool.and_eq_true]
        refine ⟨?_, hb2b⟩
        refine all_map_invariant _ _ _ (fun o _ ho => ?_) hord
        by_cases hid : (o.id == oid) = true
        · rw [if_pos hid]
          unfold orderInvariant
          dsimp only
          decide
        · rw [if_neg hid]
          exact ho
      · exact hn
  | retailMarkAsFailed oid reason =>
    simp only [applyOp]
    unfold orderService.markAsFailed
    by_cases hd : db.dbError = true
    · rw [if_pos hd]
      exact ⟨hkeep, hn⟩
    · rw [if_neg hd]
      unfold recover
      dsimp only
      constructor
      · unfold paymentInvariant
        dsimp only
        rw [Bool.and_eq_true]
        refine ⟨?_, hb2b⟩
        refine all_map_invariant _ _ _ (fun o _ ho => ?_) hord
        by_cases hid : (o.id == oid) = true
        · rw [if_pos hid]
          unfold orderInvariant
          dsimp only
          decide
        · rw [if_neg hid]
          exact ho
      · exact hn
  | cancelPendingByEmail email =>
    simp only [applyOp]
    unfold orderService.cancelPendingOrdersByEmail
    by_cases hd : db.dbError = true
    · rw [if_pos hd]
      exact ⟨hkeep, hn⟩
    · rw [if_neg hd]
      dsimp only
      constructor
      · unfold paymentInvariant
        dsimp only
        rw [Bool.and_eq_true]
        refine ⟨?_, hb2b⟩
        refine all_map_invariant _ _ _ (fun o _ ho => ?_) hord
        by_cases hhit : (o.customer_email == email && o.status == "pending") = true
        · rw [if_pos hhit]
          rw [Bool.and_eq_true] at hhit
          have hstat : o.status = "pending" := by
            have h2 := hhit.2
            simpa using h2
          unfold orderInvariant at ho ⊢
          dsimp only
          rw [hstat] at ho
          have hc1 : paidLikeStatuses.contains "pending" = false := by decide
          have hc2 : paidLikeStatuses.contains "cancelled" = false := by decide
          rw [hc1] at ho
          rw [hc2]
          exact ho
        · rw [if_neg hhit]
          exact ho
      · exact hn
  | expireOldPending hoursOld =>
    simp only [applyOp]
    unfold orderService.expireOldPendingOrders
    dsimp only
    by_cases hd : db.dbError = true
    · rw [if_pos hd]
      exact ⟨hkeep, hn⟩
    · rw [if_neg hd]
      dsimp only
      constructor
      · unfold paymentInvariant
        dsimp only
        rw [Bool.and_eq_true]
        refine ⟨?_, hb2b⟩
        refine all_map_invariant _ _ _ (fun o _ ho => ?_) hord
        by_cases hhit : (o.status == "pending" &&
            decide (o.created_at < t - hoursOld * 3600000)) = true
        · rw [if_pos hhit]
          rw [Bool.and_eq_true] at hhit
          have hstat : o.status = "pending" := by
            have h1 := hhit.1
            simpa using h1
          unfold orderInvariant at ho ⊢
          dsimp only
          rw [hstat] at ho
          have hc1 : paidLikeStatuses.contains "pending" = false := by decide
          have hc2 : paidLikeStatuses.contains "expired" = false := by decide
          rw [hc1] at ho
          rw [hc2]
          exact ho
        · rw [if_neg hhit]
          exact ho
      · exact hn
  | b2bMarkAsPaid oid =>
    simp only [applyOp]
    unfold b2bOrderService.markAsPaid
    by_cases hd : db.dbError = true
    · rw [if_pos hd]
      exact ⟨hkeep, hn⟩
    · rw [if_neg hd]
      unfold recover b2bOrderService.addHistoryEntry
      dsimp only
      rw [if_neg hd]
      constructor
      · unfold paymentInvariant
        dsimp only
        rw [Bool.and_eq_true]
        refine ⟨hord, ?_⟩
        refine all_map_invariant _ _ _ (fun o _ ho => ?_) hb2b
        by_cases hid : (o.id == oid) = true
        · rw [if_pos hid]
          unfold b2bOrderInvariant
          dsimp only
          decide
        · rw [if_neg hid]
          exact ho
      · unfold b2bIdsNodup
        dsimp only
        rw [map_key_update B2BOrder.id _ _ (fun a => by
          by_cases hid : (a.id == oid) = true <;> simp [hid])]
        exact hn
  | b2bUpdateStatus oid st changedBy note =>
    simp [safeOp] at hs
  | b2bCancelOrder oid reason =>
    simp [safeOp] at hs
  | b2bCompleteOrder oid =>
    simp [safeOp] at hs
  | b2bGenerateTickets oid =>
    simp only [applyOp]
    cases hget : b2bOrderService.getOrderById oid db with
    | error e =>
      unfold b2bOrderService.generateTickets
      rw [hget]
      exact ⟨hkeep, hn⟩
    | ok order =>
      have hd : db.dbError = false := by
        unfold b2bOrderService.getOrderById at hget
        by_cases hdd : db.dbError = true
        · rw [if_pos hdd] at hget
          cases hget
        · simpa using hdd
      have hnotd : ¬ (db.dbError = true) := by
        rw [hd]
        exact Bool.false_ne_true
      have hfind : db.b2b_orders.find? (fun o => o.id == oid) = some order := by
        unfold b2bOrderService.getOrderById at hget
        rw [if_neg hnotd] at hget
        cases hf : db.b2b_orders.find? (fun o => o.id == oid) with
        | none =>
          rw [hf] at hget
          cases hget
        | some o2 =>
          rw [hf] at hget
          dsimp only at hget
          rw [Except.ok.injEq] at hget
          rw [hget]
      have hmem : order ∈ db.b2b_orders := List.mem_of_find?_eq_some hfind
      have hido : (order.id == oid) = true := by
        simpa using List.find?_some hfind
      by_cases hst : order.status = "paid"
      · unfold b2bOrderService.generateTickets
        rw [hget]
        dsimp only
        rw [if_neg (show ¬ (order.status ≠ "paid") by rw [hst]; simp)]
        unfold b2bOrderService.getOrderItems
        rw [if_neg hnotd]
        dsimp only
        rcases hexp : b2bOrderService.explodeB2BItems order
            (db.b2b_order_items.filter (fun it => it.b2b_order_id == oid))
            db.nextId with ⟨tks, ctr⟩
        try dsimp only
        rw [if_neg hnotd]
        try dsimp only
        rw [if_neg hnotd]
        try dsimp only
        rw [if_neg hnotd]
        try dsimp only
        unfold recover b2bOrderService.addHistoryEntry
        try dsimp only
        rw [if_neg hnotd]
        try dsimp only
        constructor
        · unfold paymentInvariant
          dsimp only
          rw [Bool.and_eq_true]
          refine ⟨hord, ?_⟩
          refine all_map_invariant _ _ _ (fun o hoMem ho => ?_) hb2b
          by_cases hid : (o.id == oid) = true
          · rw [if_pos hid]
            have hn2 : (db.b2b_orders.map B2BOrder.id).Nodup := hn
            have hoeq : o = order :=
              List.inj_on_of_nodup_map hn2 hoMem hmem (by
                have h1 : o.id = oid := by simpa using hid
                have h2 : order.id = oid := by simpa using hido
                rw [h1, h2])
            have hpay : (order.payment_status == "ok") = true := by
              rw [hoeq] at ho
              unfold b2bOrderInvariant at ho
              rw [hst] at ho
              have hc : paidLikeStatuses.contains "paid" = true := by decide
              rw [hc] at ho
              simpa using ho
            rw [hoeq]
            unfold b2bOrderInvariant
            dsimp only
            rw [hpay]
            have hc2 : paidLikeStatuses.contains "tickets_generated" = true := by
              decide
            rw [hc2]
            rfl
          · rw [if_neg hid]
            exact ho
        · unfold b2bIdsNodup
          dsimp only
          rw [map_key_update B2BOrder.id _ _ (fun a => by
            by_cases hid2 : (a.id == oid) = true <;> simp [hid2])]
          exact hn
      · unfold b2bOrderService.generateTickets
        rw [hget]
        dsimp only
        rw [if_pos hst]
        exact ⟨hkeep, hn⟩

/-- C1, counterexample.  `b2bOrderService.cancelOrder` sets the status of
a paid B2B order to `cancelled` without touching `payment_status`, so one
`b2bCancelOrder` operation on a store satisfying the invariant produces a
`cancelled` order whose `payment_status` is still `ok`, violating
`payment_status = ok ⇔ status ∈ {paid, tickets_generated, tickets_sent,
completed}`. -/
theorem c1_payment_invariant_counterexample :
    paymentInvariant c1db = true ∧
    paymentInvariant
      (applyOps c1db [(0, .b2bCancelOrder 1 "plans changed")]) = false := by
  decide

/-- C1, amended.  The invariant `payment_status = ok ⇔ status ∈ {paid,
tickets_generated, tickets_sent, completed}` is preserved by every sequence
built from the lifecycle operations that synchronise the two columns
(retail `markAsPaid`/`markAsFailed`, `cancelPendingOrdersByEmail`,
`expireOldPendingOrders`, B2B `markAsPaid`, `generateTickets`), provided
`id` is a primary key of `b2b_orders`; the remaining operations
(`updateStatus`, `cancelOrder`, `completeOrder`) write a status without
ever writing `payment_status` and break it. -/
theorem c1_payment_invariant_amended (db : DB) (ops : List (Int × LifecycleOp))
    (hinv : paymentInvariant db = true) (hnodup : b2bIdsNodup db)
    (hsafe : ops.all (fun p => safeOp p.2) = true) :
    paymentInvariant (applyOps db ops) = true := by
  induction ops generalizing db with
  | nil => simpa [applyOps] using hinv
  | cons x rest ih =>
    rw [List.all_cons, Bool.and_eq_true] at hsafe
    obtain ⟨hx, hrest⟩ := hsafe
    obtain ⟨t, op⟩ := x
    have hstep := c1step db t op hx hinv hnodup
    unfold applyOps
    rw [List.foldl_cons]
    exact ih (applyOp db (t, op)) hstep.1 hstep.2 hrest

/-- Concrete instantiation of the amended C1 statement: paying and
generating tickets for the B2B order, paying the retail order and running
both bulk pending sweeps keeps the invariant on `c1wdb`. -/
theorem c1_payment_invariant_amended_witness :
    paymentInvariant c1wdb = true ∧ b2bIdsNodup c1wdb ∧
    c1wops.all (fun p => safeOp p.2) = true ∧
    paymentInvariant (applyOps c1wdb c1wops) = true :=
  ⟨by decide, by unfold b2bIdsNodup; decide, by decide,
    c1_payment_invariant_amended c1wdb c1wops (by decide)
      (by unfold b2bIdsNodup; decide) (by decide)⟩

end ServerFL
